import Mathlib

/-!
Verification of the kindle book-catalog core: a shallow embedding of
`app/model/kindle_model.py` (the `Book` entity and the `Library`
collection) and `app/controller/business.py` (the service layer), with
theorems settling the frozen specification claims.

Modelling conventions:
* Python's dynamically typed values are embedded as `PyVal`.  Python
  floats are modelled as exact rationals (`Rat`), plus a distinguished
  value for `float("-inf")`; float rendering and rounding are therefore
  idealized, but no claim depends on float printing or rounding.
* Python exceptions are embedded as `PyExc`.  `customValueError` is the
  class `ValueError` defined in `app/controller/exceptions.py`, which is
  distinct from Python's builtin `ValueError` (`builtinValueError`).
  `business.py` imports the custom class, shadowing the builtin, so its
  `except ValueError` clauses catch only `customValueError`.
* A library's backing file is embedded as `FileData`: `missing` stands
  for a path whose open raises `FileNotFoundError`, `malformed` for any
  file whose contents fail JSON parsing (`json.JSONDecodeError`), and
  `books rs` for a well-formed JSON array of objects.  Each mutating
  operation returns the resulting file alongside its result, mirroring
  `save_library`'s full rewrite; functions that raise after a write
  still return the written file.
* `uuid4()` is nondeterministic, so fresh-uuid generation is threaded as
  an explicit argument (`fresh`); likewise `datetime.now().timestamp()`
  is threaded as `now`.
-/

/-- A dynamically typed Python value, as stored in book fields, JSON
records and query arguments. -/
inductive PyVal where
  | vStr (s : String)
  | vInt (n : Int)
  | vRat (q : Rat)
  | vNegInf
  | vNone
deriving Repr, DecidableEq

/-- Python exceptions raised by the embedded code.  `customValueError`
is `app.controller.exceptions.ValueError`; `builtinValueError` is
Python's builtin `ValueError`. -/
inductive PyExc where
  | validationError (msg : String)
  | bookNotFoundError (msg : String)
  | customValueError (msg : String)
  | bookRemovalError (msg : String)
  | updateError (msg : String)
  | builtinValueError (msg : String)
  | typeError (msg : String)
  | otherError (msg : String)
deriving Repr, DecidableEq

/-- Python truthiness (`bool(v)`) for the embedded values. -/
def pyTruthy : PyVal → Bool
  | .vNone => false
  | .vStr s => !s.isEmpty
  | .vInt n => n != 0
  | .vRat q => q != 0
  | .vNegInf => true

/-- Numeric view of a value: Python ints and floats compare with each
other numerically; `float("-inf")` is below every number. -/
def numVal : PyVal → Option (WithBot Rat)
  | .vInt n => some ((n : Rat) : WithBot Rat)
  | .vRat q => some (q : WithBot Rat)
  | .vNegInf => some (⊥ : WithBot Rat)
  | _ => none

/-- Lexicographic comparison of character lists by code point, matching
Python string `<`. -/
def charListLt : List Char → List Char → Bool
  | [], [] => false
  | [], _ :: _ => true
  | _ :: _, [] => false
  | a :: as, b :: bs => if a < b then true else if b < a then false else charListLt as bs

/-- Message of the `TypeError` Python raises for an unsupported `>`
comparison (modelled as a constant string). -/
def cmpTypeErrorMsg : String := "unsupported comparison between instances of different types"

/-- Python `a > b`: numeric values compare numerically, strings compare
lexicographically, any other combination raises `TypeError`. -/
def pyGtB (a b : PyVal) : Except PyExc Bool :=
  match numVal a, numVal b with
  | some x, some y => .ok (decide (y < x))
  | _, _ =>
    match a, b with
    | .vStr s, .vStr t => .ok (charListLt t.toList s.toList)
    | _, _ => .error (.typeError cmpTypeErrorMsg)

/-- Python `a == b` for the values the code compares: cross-type
numeric equality, structural equality otherwise (never raises). -/
def pyEqB (a b : PyVal) : Bool :=
  match numVal a, numVal b with
  | some x, some y => decide (x = y)
  | _, _ => a == b

/-- Python `str(v)`.  Floats are rationals here, so their rendering is
idealized; no claim depends on the exact rendering of a float. -/
def pyStr : PyVal → String
  | .vStr s => s
  | .vInt n => toString n
  | .vRat q => if q.den = 1 then toString q.num ++ ".0" else toString q.num ++ "/" ++ toString q.den
  | .vNegInf => "-inf"
  | .vNone => "None"

/-- Digits of a decimal literal accumulated into a natural value. -/
def digitsVal (cs : List Char) : Int :=
  cs.foldl (fun acc c => acc * 10 + (Int.ofNat (c.toNat - 48))) 0

/-- Python `int(s)` on a string: optional sign followed by digits,
otherwise the builtin `ValueError` (whitespace stripping is not
modelled; no claim uses padded input). -/
def parseIntStr (s : String) : Option Int :=
  match s.toList with
  | [] => none
  | '-' :: rest => if rest ≠ [] && rest.all Char.isDigit then some (-(digitsVal rest)) else none
  | '+' :: rest => if rest ≠ [] && rest.all Char.isDigit then some (digitsVal rest) else none
  | cs => if cs.all Char.isDigit then some (digitsVal cs) else none

/-- Python `int(v)`: identity on ints, truncation toward zero on
floats, decimal parsing on strings (builtin `ValueError` on failure),
`TypeError` on `None`. -/
def pyInt : PyVal → Except PyExc Int
  | .vInt n => .ok n
  | .vRat q => .ok (Int.tdiv q.num (Int.ofNat q.den))
  | .vStr s =>
    match parseIntStr s with
    | some n => .ok n
    | none => .error (.builtinValueError ("invalid literal for int() with base 10: " ++ s))
  | .vNone => .error (.typeError "int() argument must be a string or a number, not NoneType")
  | .vNegInf => .error (.otherError "cannot convert float infinity to integer")

/-- Numeric coercion used for Python's `/` (true division). -/
def pyToQ : PyVal → Except PyExc Rat
  | .vInt n => .ok (n : Rat)
  | .vRat q => .ok q
  | .vNegInf => .ok 0
  | _ => .error (.typeError "unsupported operand type for /")

/-- Does the character list start with the given pattern list? -/
def listStartsWith : List Char → List Char → Bool
  | _, [] => true
  | [], _ :: _ => false
  | a :: as, b :: bs => a == b && listStartsWith as bs

/-- Does the character list contain the pattern list as a contiguous
run?  This is Python's `sub in hay` on strings. -/
def listHasSub : List Char → List Char → Bool
  | [], need => need.isEmpty
  | a :: as, need => listStartsWith (a :: as) need || listHasSub as need

/-- Python `sub in hay` on strings. -/
def strContains (hay sub : String) : Bool := listHasSub hay.toList sub.toList

/-- Python `sep.join(l)`. -/
def joinSep (sep : String) : List String → String
  | [] => ""
  | [s] => s
  | s :: r :: rest => s ++ sep ++ joinSep sep (r :: rest)

/-- A Python dict with string keys, in insertion order (Python dicts
preserve insertion order; keys are unique in any dict the code builds). -/
abbrev Record := List (String × PyVal)

/-- Python `r[k]` / `r.get(k)` key lookup. -/
def lookupKey (r : Record) (k : String) : Option PyVal := r.lookup k

/-- The keys of a record, in order. -/
def recordKeys (r : Record) : List String := r.map (fun kv => kv.1)

/-- The `Book` entity of `kindle_model.py`.  All fields hold dynamic
values, since `__init__` performs no type checking whatsoever. -/
structure Book where
  author : PyVal
  country : PyVal
  imageLink : PyVal
  language : PyVal
  link : PyVal
  pages : PyVal
  title : PyVal
  year : PyVal
  last_read_page : PyVal
  percentage_read : PyVal
  last_read_date : PyVal
  uuid : PyVal
deriving Repr, DecidableEq

/-- `Book.__init__`: assigns every field unchecked and sets
`self.uuid = uuid or str(uuid4())` — a falsy `uuid` argument (absent,
`None`, empty string, zero) is replaced by the freshly generated
`fresh` string. -/
def Book.init (fresh : String) (author country imageLink language link pages title year
    last_read_page percentage_read last_read_date uuid : PyVal) : Book :=
  { author := author, country := country, imageLink := imageLink, language := language,
    link := link, pages := pages, title := title, year := year,
    last_read_page := last_read_page, percentage_read := percentage_read,
    last_read_date := last_read_date,
    uuid := if pyTruthy uuid then uuid else .vStr fresh }

/-- The required `__init__` parameter names of `Book`, in order (all
parameters except the optional `uuid`). -/
def bookFields : List String :=
  ["author", "country", "imageLink", "language", "link", "pages", "title", "year",
   "last_read_page", "percentage_read", "last_read_date"]

/-- All `__init__` parameter names of `Book`. -/
def bookParams : List String := bookFields ++ ["uuid"]

/-- Python `getattr(book, key, None)`: field access with `None` default
for unknown attribute names (e.g. `genre`). -/
def pyGetattr (b : Book) : String → PyVal
  | "author" => b.author
  | "country" => b.country
  | "imageLink" => b.imageLink
  | "language" => b.language
  | "link" => b.link
  | "pages" => b.pages
  | "title" => b.title
  | "year" => b.year
  | "last_read_page" => b.last_read_page
  | "percentage_read" => b.percentage_read
  | "last_read_date" => b.last_read_date
  | "uuid" => b.uuid
  | _ => .vNone

/-- `Book.to_dict`: exports every field as a flat record, in the
source's key order. -/
def Book.to_dict (b : Book) : Record :=
  [("author", b.author), ("country", b.country), ("imageLink", b.imageLink),
   ("language", b.language), ("link", b.link), ("pages", b.pages), ("title", b.title),
   ("year", b.year), ("uuid", b.uuid), ("last_read_page", b.last_read_page),
   ("percentage_read", b.percentage_read), ("last_read_date", b.last_read_date)]

/-- Lookup of a required keyword argument during `cls(**data)` binding;
a missing required parameter raises `TypeError`. -/
def reqArg (r : Record) (k : String) : Except PyExc PyVal :=
  match lookupKey r k with
  | some v => .ok v
  | none => .error (.typeError ("missing required positional argument: " ++ k))

/-- Python keyword-argument binding `Book(**r)`: rejects unexpected
keys and missing required parameters with `TypeError`, then calls
`Book.__init__` with `uuid` defaulting to `None`. -/
def bindBookArgs (fresh : String) (r : Record) : Except PyExc Book :=
  match r.find? (fun kv => !(bookParams.contains kv.1)) with
  | some kv => .error (.typeError ("unexpected keyword argument: " ++ kv.1))
  | none =>
    match reqArg r "author" with
    | .error e => .error e
    | .ok author =>
    match reqArg r "country" with
    | .error e => .error e
    | .ok country =>
    match reqArg r "imageLink" with
    | .error e => .error e
    | .ok imageLink =>
    match reqArg r "language" with
    | .error e => .error e
    | .ok language =>
    match reqArg r "link" with
    | .error e => .error e
    | .ok link =>
    match reqArg r "pages" with
    | .error e => .error e
    | .ok pages =>
    match reqArg r "title" with
    | .error e => .error e
    | .ok title =>
    match reqArg r "year" with
    | .error e => .error e
    | .ok year =>
    match reqArg r "last_read_page" with
    | .error e => .error e
    | .ok lrp =>
    match reqArg r "percentage_read" with
    | .error e => .error e
    | .ok pr =>
    match reqArg r "last_read_date" with
    | .error e => .error e
    | .ok lrd =>
      .ok (Book.init fresh author country imageLink language link pages title year
        lrp pr lrd ((lookupKey r "uuid").getD .vNone))

/-- `Book.from_json` on an already-decoded record (the dict branch of
the source: `isinstance(json_data, str)` is false, so the data is used
as is and passed to `cls(**data)`).  The source's `except
(json.JSONDecodeError, KeyError)` clause is transparent here: binding a
dict raises neither, only `TypeError`, which propagates. -/
def Book.from_json (fresh : String) (r : Record) : Except PyExc Book := bindBookArgs fresh r

/-- `Book.update_last_read_date`: sets `last_read_date` to the current
timestamp (threaded as `now`). -/
def Book.update_last_read_date (now : Rat) (b : Book) : Book :=
  { b with last_read_date := .vRat now }

/-- `Book.update_last_read_page`: sets `last_read_page` and recomputes
`percentage_read = last_read_page / pages * 100` when `pages` is
truthy, else `0`; a truthy non-numeric `pages` raises `TypeError` from
the division. -/
def Book.update_last_read_page (b : Book) (n : Int) : Except PyExc Book :=
  if pyTruthy b.pages then
    match pyToQ b.pages with
    | .ok q => .ok { b with last_read_page := .vInt n, percentage_read := .vRat ((n : Rat) / q * 100) }
    | .error e => .error e
  else
    .ok { b with last_read_page := .vInt n, percentage_read := .vInt 0 }

/-- The backing file of a `Library`: a missing path
(`FileNotFoundError`), contents that fail JSON parsing
(`json.JSONDecodeError` — this constructor stands for every malformed
file), or a well-formed JSON array of objects. -/
inductive FileData where
  | missing
  | malformed
  | books (records : List Record)
deriving Repr, DecidableEq

/-- The record list of a file, viewed as `[]` when absent. -/
def FileData.recordsOf : FileData → List Record
  | .books rs => rs
  | _ => []

/-- The element-wise loading loop `[Book.from_json(book) for book in
data]`; `fresh i` is the uuid `str(uuid4())` would generate for the
`i`-th record, were it needed. -/
def loadBooks (fresh : Nat → String) : Nat → List Record → Except PyExc (List Book)
  | _, [] => .ok []
  | i, r :: rs =>
    match Book.from_json (fresh i) r with
    | .error e => .error e
    | .ok b =>
      match loadBooks fresh (i + 1) rs with
      | .error e => .error e
      | .ok bs => .ok (b :: bs)

/-- `Library.load_library`: a missing file or malformed JSON yields an
empty book list (the caught `FileNotFoundError` / `JSONDecodeError`);
otherwise each record is loaded through `Book.from_json`, whose
`TypeError` on a bad record propagates uncaught. -/
def load_library (fresh : Nat → String) : FileData → Except PyExc (List Book)
  | .missing => .ok []
  | .malformed => .ok []
  | .books rs => loadBooks fresh 0 rs

/-- `Library.save_library`: full rewrite of the backing file with every
book exported through `to_dict`. -/
def save_library (books : List Book) : FileData :=
  .books (books.map Book.to_dict)

/-- The matching loop body of `Library.find_books` over one book: the
`uuid` key compares by equality, every other key requires the field to
be non-`None` and the query value to be a substring of the stringified
field; the first failing pair breaks. -/
def bookMatchesQuery (b : Book) : List (String × String) → Bool
  | [] => true
  | (k, v) :: rest =>
    let book_attr := pyGetattr b k
    if k == "uuid" then
      if !(pyEqB book_attr (.vStr v)) then false else bookMatchesQuery b rest
    else
      if book_attr == .vNone || !(strContains (pyStr book_attr) v) then false
      else bookMatchesQuery b rest

/-- `Library.find_books`: collects `book.to_dict()` for every book all
of whose query pairs match, in library order. -/
def find_books (books : List Book) (q : List (String × String)) : List Record :=
  books.foldr (fun b acc => if bookMatchesQuery b q then b.to_dict :: acc else acc) []

/-- `Library.list_books`: every book as a record, in order. -/
def list_books (books : List Book) : List Record := books.map Book.to_dict

/-- `Library.update_reading_status`: finds the first book with the
given uuid, updates its read date then its page (the latter may raise),
and reports whether a save took place (`break` after the first match;
no match is a silent no-op). -/
def update_reading_status (now : Rat) (uuid : String) (n : Int) :
    List Book → Except PyExc (List Book × Bool)
  | [] => .ok ([], false)
  | b :: bs =>
    if pyEqB b.uuid (.vStr uuid) then
      match (Book.update_last_read_date now b).update_last_read_page n with
      | .ok b2 => .ok (b2 :: bs, true)
      | .error e => .error e
    else
      match update_reading_status now uuid n bs with
      | .ok (bs2, f) => .ok (b :: bs2, f)
      | .error e => .error e

/-- `ALLOWED_KEYS` of `business.py`: the search/target allow-list. -/
def ALLOWED_KEYS : List String :=
  ["pages", "year", "title", "author", "uuid", "genre", "last_read_date", "language"]

/-- `REQUIRED_KEYS` of `business.py`: the exact key set a record must
carry for global catalog ingestion. -/
def REQUIRED_KEYS : List String :=
  ["author", "country", "imageLink", "language", "link", "pages", "title", "year",
   "last_read_page", "percentage_read", "last_read_date"]

/-- `validate_keys`: a target not in the allow-list raises
`ValidationError` (the `None` target short-circuit is not reachable
from the operations modelled here, which always pass a string). -/
def validate_keys (target : String) : Except PyExc Unit :=
  if !(ALLOWED_KEYS.contains target) then
    .error (.validationError
      ("Invalid target. Allowed keys for searching are " ++ joinSep ", " ALLOWED_KEYS ++ "."))
  else .ok ()

/-- Python set equality `set(keys) == set(REQUIRED_KEYS)`. -/
def sameKeySet (ks : List String) : Bool :=
  REQUIRED_KEYS.all (fun k => ks.contains k) && ks.all (fun k => REQUIRED_KEYS.contains k)

/-- `validate_json`: a falsy record (`None` or empty dict) raises
`ValidationError("JSON data is None.")`; a key set differing from
`REQUIRED_KEYS` raises `ValidationError` whose message joins the
missing keys and the extra keys (Python iterates the difference sets in
unspecified order; this model fixes the source-list order, which names
the same keys). -/
def validate_json (r : Record) : Except PyExc Unit :=
  if r.isEmpty then .error (.validationError "JSON data is None.")
  else if !(sameKeySet (recordKeys r)) then
    let missing := REQUIRED_KEYS.filter (fun k => !((recordKeys r).contains k))
    let extra := (recordKeys r).filter (fun k => !(REQUIRED_KEYS.contains k))
    let msgs :=
      (if !missing.isEmpty then ["Missing keys: " ++ joinSep ", " missing] else []) ++
      (if !extra.isEmpty then ["Extra keys: " ++ joinSep ", " extra] else [])
    .error (.validationError ("Invalid JSON. " ++ joinSep " " msgs))
  else .ok ()

/-- `business.list_books`: loads the library and returns the record
list (the `"Books"` payload of the success dict). -/
def list_books_op (fresh : Nat → String) (file : FileData) : Except PyExc (List Record) :=
  match load_library fresh file with
  | .error e => .error e
  | .ok books => .ok (list_books books)

/-- `add_book_user`: loads the user then the global library, raises
`ValidationError` on a uuid already in the user library and
`BookNotFoundError` on a uuid absent from the global library, else
appends `Book.from_json(found_global[0])` to the user library and saves
it.  Returns the `"book added"` payload and the resulting user file
(unchanged on every error path). -/
def add_book_user (freshU freshG : Nat → String) (freshNew : String) (book_uuid : String)
    (globalFile userFile : FileData) : Except PyExc Record × FileData :=
  match load_library freshU userFile with
  | .error e => (.error e, userFile)
  | .ok ubooks =>
    match load_library freshG globalFile with
    | .error e => (.error e, userFile)
    | .ok gbooks =>
      match find_books ubooks [("uuid", book_uuid)] with
      | _ :: _ => (.error (.validationError "Book already exists in the user\x27s library."), userFile)
      | [] =>
        match find_books gbooks [("uuid", book_uuid)] with
        | [] => (.error (.bookNotFoundError "Book not found in the global library."), userFile)
        | g0 :: _ =>
          match Book.from_json freshNew g0 with
          | .error e => (.error e, userFile)
          | .ok book_to_add =>
            (.ok book_to_add.to_dict, save_library (ubooks ++ [book_to_add]))

/-- Result of `add_book_global`: the success payload, or the
`{"status": "error", ...}` dict its `except` clauses return for a
`ValidationError`/`BookNotFoundError` raised inside the `try` block. -/
inductive AddGlobalResult where
  | success (book : Record)
  | errorDict (msg : String)
deriving Repr, DecidableEq

/-- `add_book_global`: validates the key set (errors propagate), then
inside a `try` loads the global library, constructs `Book(**json)` and
appends it.  `ValidationError`/`BookNotFoundError` raised inside the
`try` become an error dict; anything else (e.g. `TypeError`)
propagates. -/
def add_book_global (fresh : Nat → String) (freshNew : String) (r : Record)
    (file : FileData) : Except PyExc AddGlobalResult × FileData :=
  match validate_json r with
  | .error e => (.error e, file)
  | .ok _ =>
    match load_library fresh file with
    | .error (.validationError m) => (.ok (.errorDict m), file)
    | .error (.bookNotFoundError m) => (.ok (.errorDict m), file)
    | .error e => (.error e, file)
    | .ok gbooks =>
      match bindBookArgs freshNew r with
      | .error (.validationError m) => (.ok (.errorDict m), file)
      | .error (.bookNotFoundError m) => (.ok (.errorDict m), file)
      | .error e => (.error e, file)
      | .ok new_book =>
        (.ok (.success new_book.to_dict), save_library (gbooks ++ [new_book]))

/-- The iteration of Python's `max(iterable, key=...)`: starting from
the first element, each later element replaces the current best exactly
when its key compares strictly greater; a failing comparison raises. -/
def pyMaxBy (key : α → PyVal) : α → List α → Except PyExc α
  | best, [] => .ok best
  | best, x :: xs =>
    match pyGtB (key x) (key best) with
    | .error e => .error e
    | .ok g => pyMaxBy key (if g then x else best) xs

/-- `find_top_book_user`: validates the target, loads the user library,
raises `BookNotFoundError` on an empty library and `ValidationError`
when no record carries the target key, then selects
`max(books_user, key=lambda book: book.get(target, float("-inf")))`.
The surrounding `except ValueError` catches only the custom
`ValueError` class, so a `TypeError` from the comparison propagates
uncaught. -/
def find_top_book_user (fresh : Nat → String) (file : FileData) (target : String) :
    Except PyExc Record :=
  match validate_keys target with
  | .error e => .error e
  | .ok _ =>
    match load_library fresh file with
    | .error e => .error e
    | .ok books =>
      match list_books books with
      | [] => .error (.bookNotFoundError "No books in the user\x27s library.")
      | r :: rs =>
        if !((r :: rs).any (fun rec => (lookupKey rec target).isSome)) then
          .error (.validationError
            ("No books with the attribute: " ++ target ++ " found in the user\x27s library."))
        else
          match pyMaxBy (fun rec => (lookupKey rec target).getD .vNegInf) r rs with
          | .ok top => .ok top
          | .error (.customValueError _) =>
            .error (.validationError
              ("Error finding the top book based on the attribute: " ++ target ++ "."))
          | .error e => .error e

/-- `change_book_page_user`.  The `int(page_number)` conversion sits in
a `try` whose `except ValueError` refers to the custom `ValueError`
class (the import in `business.py` shadows the builtin), so the builtin
`ValueError` raised by `int()` on a non-numeric string propagates
uncaught; a non-positive converted value raises `ValidationError` from
inside the `try`, which the clause likewise does not catch.  Then: load
the library, `BookNotFoundError` when the uuid matches nothing,
`ValidationError` when the matched record has no `pages` key or the
page exceeds a non-`None` total, delegate to `update_reading_status`
(which saves), re-read from the same in-memory instance and raise
`UpdateError` on a persisted mismatch.  On success the returned payload
is `books` — the record list fetched before the mutation. -/
def change_book_page_user (now : Rat) (fresh : Nat → String) (book_uuid : String)
    (page_number : PyVal) (file : FileData) : Except PyExc (List Record) × FileData :=
  match (match pyInt page_number with
         | .ok n =>
           if n ≤ 0 then .error (.validationError "Page number must be a positive integer.")
           else .ok n
         | .error (.customValueError _) =>
           .error (.validationError "Page number must be an integer.")
         | .error e => .error e : Except PyExc Int) with
  | .error e => (.error e, file)
  | .ok n =>
    match load_library fresh file with
    | .error e => (.error e, file)
    | .ok books =>
      match find_books books [("uuid", book_uuid)] with
      | [] => (.error (.bookNotFoundError
          "No book with the specified UUID exists in the user\x27s library."), file)
      | book :: rest =>
        match lookupKey book "pages" with
        | none => (.error (.validationError "The book does not have a \x27pages\x27 attribute."), file)
        | some total_pages =>
          match (if total_pages == PyVal.vNone then .ok false else pyGtB (.vInt n) total_pages) with
          | .error e => (.error e, file)
          | .ok gt =>
            if gt then
              (.error (.validationError "Page number exceeds total pages of the book."), file)
            else
              match update_reading_status now book_uuid n books with
              | .error e => (.error e, file)
              | .ok (books2, saved) =>
                let file2 := if saved then save_library books2 else file
                match find_books books2 [("uuid", book_uuid)] with
                | [] => (.error (.otherError "IndexError: list index out of range"), file2)
                | ub :: _ =>
                  match lookupKey ub "last_read_page" with
                  | none => (.error (.otherError "KeyError: last_read_page"), file2)
                  | some v =>
                    if !(pyEqB v (.vInt n)) then
                      (.error (.updateError ("Page update for book:" ++ book_uuid ++ " failed.")), file2)
                    else
                      (.ok (book :: rest), file2)

/-- Specification-side match predicate for `findBy` (from the spec's
words): the `uuid` field matches by equality; any other field matches
iff it is present (non-null) on the book and the query value is a
case-sensitive substring of the stringified field value. -/
def pairMatches (b : Book) (kv : String × String) : Bool :=
  if kv.1 == "uuid" then pyEqB (pyGetattr b kv.1) (.vStr kv.2)
  else pyGetattr b kv.1 != .vNone && strContains (pyStr (pyGetattr b kv.1)) kv.2

/-- Pure first-maximum fold: each later element replaces the current
best exactly when its key is strictly greater (so ties keep the
earliest element). -/
def pickMax [LinearOrder β] (f : α → β) (x : α) (l : List α) : α :=
  l.foldl (fun bb y => if f bb < f y then y else bb) x

/-- The comparison key `find_top_book_user` effectively uses on a
record whose target value is numeric: the value as an extended
rational, with the missing-key default `float("-inf")` at the bottom. -/
def recTargetQ (target : String) (r : Record) : WithBot Rat :=
  (numVal ((lookupKey r target).getD .vNegInf)).getD ⊥

/-- Is the value numeric (int, float or `-inf`)? -/
def isNumV (v : PyVal) : Bool := (numVal v).isSome

/-- Is the value a string? -/
def isStrV : PyVal → Bool
  | .vStr _ => true
  | _ => false

/-- A deterministic stand-in for the `str(uuid4())` supply. -/
def fresh0 : Nat → String := fun i => "gen-" ++ toString i

/-- Sample book used by concrete witnesses: every required field set,
with the given uuid, page count and last-read date. -/
def mkSample (u : String) (pagesV lrdV : PyVal) : Book :=
  { author := .vStr "A", country := .vStr "B", imageLink := .vStr "I", language := .vStr "L",
    link := .vStr "K", pages := pagesV, title := .vStr "T", year := .vInt 1990,
    last_read_page := .vInt 10, percentage_read := .vRat 7, last_read_date := lrdV,
    uuid := .vStr u }

/-- Sample book with 300 pages and uuid `u1` (Scenario D). -/
def bookU1 : Book := mkSample "u1" (.vInt 300) (.vRat 1000)

/-- Sample single-book user library file backing `bookU1`. -/
def fileU1 : FileData := .books [bookU1.to_dict]

/-- Sample book with numeric last-read date 5. -/
def bookN5 : Book := mkSample "n5" (.vInt 120) (.vRat 5)

/-- Sample book with numeric last-read date 9. -/
def bookN9 : Book := mkSample "n9" (.vInt 130) (.vRat 9)

/-- Sample book whose last-read date is a string. -/
def bookSDate : Book := mkSample "sd" (.vInt 140) (.vStr "2020-01-01")

/-- Sample record with every required key (and no uuid) but a
non-numeric `pages` value. -/
def recBadPages : Record :=
  [("author", .vStr "A"), ("country", .vStr "B"), ("imageLink", .vStr "I"),
   ("language", .vStr "L"), ("link", .vStr "K"), ("pages", .vStr "many"), ("title", .vStr "T"),
   ("year", .vInt 1990), ("last_read_page", .vInt 0), ("percentage_read", .vInt 0),
   ("last_read_date", .vRat 0)]

/-- Sample record lacking the `last_read_date` key (and nothing else). -/
def recNoDate : Record :=
  [("author", .vStr "A"), ("country", .vStr "B"), ("imageLink", .vStr "I"),
   ("language", .vStr "L"), ("link", .vStr "K"), ("pages", .vInt 150), ("title", .vStr "T"),
   ("year", .vInt 1990), ("uuid", .vStr "nd"), ("last_read_page", .vInt 0),
   ("percentage_read", .vInt 0)]

/-- Sample record with every required key except `title`. -/
def recMissingTitle : Record :=
  [("author", .vStr "A"), ("country", .vStr "B"), ("imageLink", .vStr "I"),
   ("language", .vStr "L"), ("link", .vStr "K"), ("pages", .vInt 864),
   ("year", .vInt 1877), ("last_read_page", .vInt 0), ("percentage_read", .vInt 0),
   ("last_read_date", .vRat 0)]

/-- The missing-key list of `validate_json`, in the source list's
order (Python iterates the difference set in unspecified order; the
set of named keys is the same). -/
def missingKeysOf (r : Record) : List String :=
  REQUIRED_KEYS.filter (fun k => !((recordKeys r).contains k))

/-- The extra-key list of `validate_json`. -/
def extraKeysOf (r : Record) : List String :=
  (recordKeys r).filter (fun k => !(REQUIRED_KEYS.contains k))

/-- The message `validate_json` raises for a non-empty record whose key
set deviates from the required set. -/
def invalidJsonMsg (r : Record) : String :=
  "Invalid JSON. " ++ joinSep " "
    ((if !(missingKeysOf r).isEmpty
      then ["Missing keys: " ++ joinSep ", " (missingKeysOf r)] else []) ++
     (if !(extraKeysOf r).isEmpty
      then ["Extra keys: " ++ joinSep ", " (extraKeysOf r)] else []))

/-- The book as a successful `update_reading_status` rewrites it: the
new page, the derived percentage and the refreshed timestamp. -/
def pageUpdatedBook (now : Rat) (n p : Int) (b : Book) : Book :=
  { b with
      last_read_page := .vInt n,
      percentage_read := .vRat ((n : Rat) / (p : Rat) * 100),
      last_read_date := .vRat now }

theorem strToList_append (a b : String) : (a ++ b).toList = a.toList ++ b.toList := by
  cases a; cases b; rfl

theorem beq_eq_decide_pyval (a b : PyVal) : (a == b) = decide (a = b) := rfl

theorem listStartsWith_iff (a b : List Char) :
    listStartsWith a b = true ↔ ∃ t, a = b ++ t := by
  induction b generalizing a with
  | nil => simp [listStartsWith]
  | cons c cs ih =>
    cases a with
    | nil => simp [listStartsWith]
    | cons x xs =>
      simp only [listStartsWith, Bool.and_eq_true, beq_iff_eq, ih, List.cons_append,
        List.cons.injEq]
      constructor
      · rintro ⟨rfl, t, rfl⟩; exact ⟨t, rfl, rfl⟩
      · rintro ⟨t, rfl, rfl⟩; exact ⟨rfl, t, rfl⟩

theorem listHasSub_iff (a b : List Char) :
    listHasSub a b = true ↔ ∃ u t, a = u ++ b ++ t := by
  induction a with
  | nil =>
    simp only [listHasSub, List.isEmpty_iff]
    constructor
    · rintro rfl; exact ⟨[], [], rfl⟩
    · rintro ⟨u, t, h⟩
      rcases List.append_eq_nil.mp (List.append_eq_nil.mp h.symm).1 with ⟨_, h2⟩
      exact h2
  | cons x xs ih =>
    simp only [listHasSub, Bool.or_eq_true, listStartsWith_iff, ih]
    constructor
    · rintro (⟨t, h⟩ | ⟨u, t, h⟩)
      · exact ⟨[], t, by simpa using h⟩
      · exact ⟨x :: u, t, by simp [h]⟩
    · rintro ⟨u, t, h⟩
      cases u with
      | nil => exact Or.inl ⟨t, by simpa using h⟩
      | cons y ys =>
        simp only [List.cons_append, List.cons.injEq] at h
        exact Or.inr ⟨ys, t, h.2⟩

theorem strContains_iff (hay sub : String) :
    strContains hay sub = true ↔ ∃ u t, hay.toList = u ++ sub.toList ++ t :=
  listHasSub_iff hay.toList sub.toList

theorem strContains_refl (s : String) : strContains s s = true := by
  rw [strContains_iff]; exact ⟨[], [], by simp⟩

theorem strContains_empty (s : String) : strContains s "" = true := by
  rw [strContains_iff]; exact ⟨[], s.toList, by simp⟩

theorem strContains_appendL (a b k : String) (h : strContains a k = true) :
    strContains (a ++ b) k = true := by
  rw [strContains_iff] at h ⊢
  obtain ⟨u, t, hu⟩ := h
  exact ⟨u, t ++ b.toList, by rw [strToList_append, hu]; simp⟩

theorem strContains_appendR (a b k : String) (h : strContains b k = true) :
    strContains (a ++ b) k = true := by
  rw [strContains_iff] at h ⊢
  obtain ⟨u, t, hu⟩ := h
  exact ⟨a.toList ++ u, t, by rw [strToList_append, hu]; simp⟩

theorem strContains_trans (a b k : String) (h1 : strContains a b = true)
    (h2 : strContains b k = true) : strContains a k = true := by
  rw [strContains_iff] at h1 h2 ⊢
  obtain ⟨u, t, hu⟩ := h1
  obtain ⟨u2, t2, hu2⟩ := h2
  exact ⟨u ++ u2, t2 ++ t, by rw [hu, hu2]; simp⟩

theorem strContains_joinSep (sep : String) (l : List String) (s : String) (h : s ∈ l) :
    strContains (joinSep sep l) s = true := by
  induction l with
  | nil => cases h
  | cons x xs ih =>
    cases xs with
    | nil =>
      rcases List.mem_singleton.mp h with rfl
      exact strContains_refl s
    | cons y ys =>
      rcases List.mem_cons.mp h with rfl | hmem
      · show strContains (s ++ sep ++ joinSep sep (y :: ys)) s = true
        exact strContains_appendL _ _ _ (strContains_appendL _ _ _ (strContains_refl s))
      · show strContains (x ++ sep ++ joinSep sep (y :: ys)) s = true
        exact strContains_appendR _ _ _ (ih hmem)

theorem pyEqB_vStr (x : PyVal) (u : String) : pyEqB x (.vStr u) = decide (x = .vStr u) := by
  cases x <;> rfl

theorem pyEqB_vInt_self (n : Int) : pyEqB (.vInt n) (.vInt n) = true := by
  simp [pyEqB, numVal]

theorem pyGtB_num (a b : PyVal) (ha : (numVal a).isSome = true) (hb : (numVal b).isSome = true) :
    pyGtB a b = .ok (decide ((numVal b).getD ⊥ < (numVal a).getD ⊥)) := by
  rcases Option.isSome_iff_exists.mp ha with ⟨x, hx⟩
  rcases Option.isSome_iff_exists.mp hb with ⟨y, hy⟩
  simp [pyGtB, hx, hy]

theorem isStrV_numVal_none (v : PyVal) (h : isStrV v = true) : numVal v = none := by
  cases v <;> simp_all [isStrV, numVal]

theorem pyGtB_num_str (a b : PyVal) (ha : isNumV a = true) (hb : isStrV b = true) :
    pyGtB a b = .error (.typeError cmpTypeErrorMsg) := by
  cases a <;> cases b <;> simp_all [isNumV, isStrV, numVal, pyGtB]

theorem pyGtB_str_num (a b : PyVal) (ha : isStrV a = true) (hb : isNumV b = true) :
    pyGtB a b = .error (.typeError cmpTypeErrorMsg) := by
  cases a <;> cases b <;> simp_all [isNumV, isStrV, numVal, pyGtB]

theorem from_json_to_dict (fresh : String) (b : Book) (h : pyTruthy b.uuid = true) :
    Book.from_json fresh b.to_dict = .ok b := by
  obtain ⟨a, c, i, l, k, p, t, y, lrp, pr, lrd, u⟩ := b
  simp only [Book.to_dict] at *
  simp only [Book.from_json, bindBookArgs, reqArg, lookupKey, List.find?, List.lookup,
    bookParams, bookFields]
  simp [Book.init, h]

theorem loadBooks_map_to_dict (fresh : Nat → String) (i : Nat) (l : List Book)
    (h : ∀ b ∈ l, pyTruthy b.uuid = true) :
    loadBooks fresh i (l.map Book.to_dict) = .ok l := by
  induction l generalizing i with
  | nil => rfl
  | cons b bs ih =>
    have hb : pyTruthy b.uuid = true := h b (List.mem_cons_self b bs)
    have hrest : ∀ x ∈ bs, pyTruthy x.uuid = true := fun x hx => h x (List.mem_cons_of_mem b hx)
    simp only [List.map_cons, loadBooks, from_json_to_dict (fresh i) b hb, ih (i + 1) hrest]

theorem load_library_map_to_dict (fresh : Nat → String) (l : List Book)
    (h : ∀ b ∈ l, pyTruthy b.uuid = true) :
    load_library fresh (.books (l.map Book.to_dict)) = .ok l :=
  loadBooks_map_to_dict fresh 0 l h

theorem find_books_eq_filter (books : List Book) (q : List (String × String)) :
    find_books books q = (books.filter (fun b => bookMatchesQuery b q)).map Book.to_dict := by
  induction books with
  | nil => rfl
  | cons b bs ih =>
    simp only [find_books, List.foldr_cons, List.filter_cons] at *
    by_cases h : bookMatchesQuery b q <;> simp [h, ih]

theorem pairMatches_pair (b : Book) (k v : String) :
    pairMatches b (k, v) =
      if k == "uuid" then pyEqB (pyGetattr b k) (.vStr v)
      else pyGetattr b k != .vNone && strContains (pyStr (pyGetattr b k)) v := rfl

theorem bookMatchesQuery_eq_all (b : Book) (q : List (String × String)) :
    bookMatchesQuery b q = q.all (fun kv => pairMatches b kv) := by
  induction q with
  | nil => rfl
  | cons kv rest ih =>
    obtain ⟨k, v⟩ := kv
    rw [List.all_cons, ← ih, pairMatches_pair]
    cases hk : (k == "uuid") with
    | true =>
      cases hm : pyEqB (pyGetattr b k) (.vStr v) <;>
        simp [bookMatchesQuery, hk, hm]
    | false =>
      cases hnone : (pyGetattr b k == PyVal.vNone) <;>
        cases hsub : strContains (pyStr (pyGetattr b k)) v <;>
          simp [bookMatchesQuery, hk, hnone, hsub, bne]

theorem find_books_uuid (books : List Book) (u : String) :
    find_books books [("uuid", u)] =
      (books.filter (fun b => pyEqB b.uuid (.vStr u))).map Book.to_dict := by
  rw [find_books_eq_filter]
  congr 1
  apply List.filter_congr
  intro b _
  simp [bookMatchesQuery_eq_all, pairMatches, pyGetattr]

theorem find_books_uuid_nil (books : List Book) (u : String)
    (h : ∀ b ∈ books, b.uuid ≠ .vStr u) : find_books books [("uuid", u)] = [] := by
  rw [find_books_uuid]
  have : books.filter (fun b => pyEqB b.uuid (.vStr u)) = [] := by
    apply List.filter_eq_nil_iff.mpr
    intro b hb
    rw [pyEqB_vStr]
    simpa using h b hb
  simp [this]

theorem pickMax_cons [LinearOrder β] (f : α → β) (x a : α) (l : List α) :
    pickMax f x (a :: l) = pickMax f (if f x < f a then a else x) l := rfl

theorem pickMax_first_max [LinearOrder β] (f : α → β) (x : α) (l : List α) :
    ∃ l1 l2, x :: l = l1 ++ pickMax f x l :: l2
      ∧ (∀ y ∈ l1, f y < f (pickMax f x l))
      ∧ (∀ y ∈ l2, f y ≤ f (pickMax f x l)) := by
  induction l generalizing x with
  | nil => exact ⟨[], [], rfl, by simp, by simp⟩
  | cons a l ih =>
    rw [pickMax_cons]
    by_cases hxa : f x < f a
    · rw [if_pos hxa]
      obtain ⟨l1, l2, heq, h1, h2⟩ := ih a
      have hxm : f x < f (pickMax f a l) := by
        cases l1 with
        | nil =>
          simp only [List.nil_append, List.cons.injEq] at heq
          rw [← heq.1]; exact hxa
        | cons z zs =>
          simp only [List.cons_append, List.cons.injEq] at heq
          calc f x < f a := hxa
            _ < f (pickMax f a l) := heq.1 ▸ h1 z (List.mem_cons_self z zs)
      refine ⟨x :: l1, l2, by rw [List.cons_append, ← heq], ?_, h2⟩
      intro y hy
      rcases List.mem_cons.mp hy with rfl | hy'
      · exact hxm
      · exact h1 y hy'
    · rw [if_neg hxa]
      obtain ⟨l1, l2, heq, h1, h2⟩ := ih x
      set m := pickMax f x l with hm
      cases l1 with
      | nil =>
        simp only [List.nil_append, List.cons.injEq] at heq
        refine ⟨[], a :: l, by simp [← heq.1], by simp, ?_⟩
        intro y hy
        rcases List.mem_cons.mp hy with rfl | hy'
        · rw [← heq.1]; exact le_of_not_lt hxa
        · rw [← heq.1]; exact heq.1 ▸ h2 y (heq.2 ▸ hy')
      | cons z zs =>
        simp only [List.cons_append, List.cons.injEq] at heq
        have hzm : f z < f (pickMax f x l) := h1 z (List.mem_cons_self z zs)
        refine ⟨x :: a :: zs, l2, by simp [heq.2], ?_, h2⟩
        intro y hy
        rcases List.mem_cons.mp hy with rfl | hy'
        · exact heq.1 ▸ hzm
        rcases List.mem_cons.mp hy' with rfl | hy''
        · exact lt_of_le_of_lt (le_of_not_lt hxa) (heq.1 ▸ hzm)
        · exact h1 y (List.mem_cons_of_mem z hy'')

theorem pyMaxBy_eq_pickMax (key : α → PyVal) (x : α) (l : List α)
    (h : ∀ y ∈ x :: l, (numVal (key y)).isSome = true) :
    pyMaxBy key x l = .ok (pickMax (fun y => (numVal (key y)).getD ⊥) x l) := by
  induction l generalizing x with
  | nil => rfl
  | cons a l ih =>
    have hx := h x (by simp)
    have ha := h a (by simp)
    rw [pyMaxBy, pyGtB_num _ _ ha hx, pickMax_cons]
    by_cases hlt : ((numVal (key x)).getD (⊥ : WithBot Rat) < (numVal (key a)).getD ⊥)
    · rw [decide_eq_true hlt, if_pos hlt]
      show pyMaxBy key a l = _
      exact ih a (fun y hy => by
        rcases List.mem_cons.mp hy with rfl | hy'
        · exact ha
        · exact h y (by simp [hy']))
    · rw [decide_eq_false hlt, if_neg hlt]
      show pyMaxBy key x l = _
      exact ih x (fun y hy => by
        rcases List.mem_cons.mp hy with rfl | hy'
        · exact hx
        · exact h y (by simp [hy']))

theorem isNum_not_isStr (v : PyVal) (hn : isNumV v = true) (hs : isStrV v = true) : False := by
  cases v <;> simp_all [isNumV, isStrV, numVal]

theorem pyGtB_str_str (a b : PyVal) (ha : isStrV a = true) (hb : isStrV b = true) :
    ∃ g, pyGtB a b = .ok g := by
  cases a <;> cases b <;> simp_all [isStrV, pyGtB, numVal]

theorem pyMaxBy_mixed (key : α → PyVal) (x : α) (l : List α)
    (hall : ∀ y ∈ x :: l, isNumV (key y) = true ∨ isStrV (key y) = true)
    (hnum : ∃ y, y ∈ x :: l ∧ isNumV (key y) = true)
    (hstr : ∃ y, y ∈ x :: l ∧ isStrV (key y) = true) :
    pyMaxBy key x l = .error (.typeError cmpTypeErrorMsg) := by
  induction l generalizing x with
  | nil =>
    obtain ⟨y, hy, hyn⟩ := hnum
    obtain ⟨z, hz, hzs⟩ := hstr
    rcases List.mem_singleton.mp hy with rfl
    rcases List.mem_singleton.mp hz with rfl
    exact (isNum_not_isStr _ hyn hzs).elim
  | cons a l ih =>
    rcases hall x (by simp) with hxn | hxs
    · rcases hall a (by simp) with han | has
      · rw [pyMaxBy, pyGtB_num _ _ (by simpa [isNumV] using han) (by simpa [isNumV] using hxn)]
        obtain ⟨z, hz, hzs⟩ := hstr
        have hzl : z ∈ l := by
          rcases List.mem_cons.mp hz with rfl | hz'
          · exact (isNum_not_isStr _ hxn hzs).elim
          rcases List.mem_cons.mp hz' with rfl | hz''
          · exact (isNum_not_isStr _ han hzs).elim
          · exact hz''
        set best := if decide ((numVal (key x)).getD ⊥ < (numVal (key a)).getD ⊥) = true then a else x with hbest
        have hbn : isNumV (key best) = true := by
          rw [hbest]; split <;> assumption
        show pyMaxBy key best l = _
        refine ih best ?_ ⟨best, by simp, hbn⟩ ⟨z, by simp [hzl], hzs⟩
        intro y hy
        rcases List.mem_cons.mp hy with rfl | hy'
        · exact Or.inl hbn
        · exact hall y (by simp [hy'])
      · rw [pyMaxBy, pyGtB_str_num _ _ has hxn]
    · rcases hall a (by simp) with han | has
      · rw [pyMaxBy, pyGtB_num_str _ _ han hxs]
      · obtain ⟨g, hg⟩ := pyGtB_str_str (key a) (key x) has hxs
        rw [pyMaxBy, hg]
        obtain ⟨z, hz, hzn⟩ := hnum
        have hzl : z ∈ l := by
          rcases List.mem_cons.mp hz with rfl | hz'
          · exact (isNum_not_isStr _ hzn hxs).elim
          rcases List.mem_cons.mp hz' with rfl | hz''
          · exact (isNum_not_isStr _ hzn has).elim
          · exact hz''
        set best := if g = true then a else x with hbest
        have hbs : isStrV (key best) = true := by
          rw [hbest]; split <;> assumption
        show pyMaxBy key best l = _
        refine ih best ?_ ⟨z, by simp [hzl], hzn⟩ ⟨best, by simp, hbs⟩
        intro y hy
        rcases List.mem_cons.mp hy with rfl | hy'
        · exact Or.inr hbs
        · exact hall y (by simp [hy'])

theorem update_reading_status_skip (now : Rat) (u : String) (n : Int) (pre rest : List Book)
    (hpre : ∀ x ∈ pre, pyEqB x.uuid (.vStr u) = false) (bs2 : List Book) (f : Bool)
    (h : update_reading_status now u n rest = .ok (bs2, f)) :
    update_reading_status now u n (pre ++ rest) = .ok (pre ++ bs2, f) := by
  induction pre with
  | nil => simpa using h
  | cons b bs ih =>
    have hb : pyEqB b.uuid (.vStr u) = false := hpre b (List.mem_cons_self b bs)
    have hrest : ∀ x ∈ bs, pyEqB x.uuid (.vStr u) = false :=
      fun x hx => hpre x (List.mem_cons_of_mem b hx)
    simp only [List.cons_append, update_reading_status, hb, Bool.false_eq_true, if_false,
      List.append_eq, ih hrest]

theorem update_reading_status_head (now : Rat) (u : String) (n : Int) (b : Book)
    (post : List Book) (hb : pyEqB b.uuid (.vStr u) = true) (b2 : Book)
    (hupd : (Book.update_last_read_date now b).update_last_read_page n = .ok b2) :
    update_reading_status now u n (b :: post) = .ok (b2 :: post, true) := by
  simp only [update_reading_status, hb, if_true, hupd]

theorem lookup_isSome_iff (r : Record) (k : String) :
    (List.lookup k r).isSome = true ↔ k ∈ recordKeys r := by
  induction r with
  | nil => simp [List.lookup, recordKeys]
  | cons kv rest ih =>
    obtain ⟨k2, v⟩ := kv
    by_cases hk : k = k2
    · subst hk; simp [List.lookup, recordKeys]
    · have : (k == k2) = false := by simpa using hk
      simp [List.lookup, this, recordKeys, ih, hk]

theorem lookup_eq_none_iff (r : Record) (k : String) :
    List.lookup k r = none ↔ k ∉ recordKeys r := by
  rw [← lookup_isSome_iff]
  cases List.lookup k r <;> simp

theorem filter_uuid_length_le_one (books : List Book) (u : String)
    (h : (books.map Book.uuid).Nodup) :
    (books.filter (fun b => pyEqB b.uuid (.vStr u))).length ≤ 1 := by
  induction books with
  | nil => simp
  | cons b bs ih =>
    simp only [List.map_cons, List.nodup_cons] at h
    rw [List.filter_cons]
    by_cases hb : pyEqB b.uuid (.vStr u) = true
    · have hnil : bs.filter (fun x => pyEqB x.uuid (.vStr u)) = [] := by
        apply List.filter_eq_nil_iff.mpr
        intro x hx
        rw [pyEqB_vStr] at hb ⊢
        simp only [decide_eq_true_eq] at hb
        simp only [decide_eq_true_eq]
        intro hxu
        apply h.1
        have hmem : x.uuid ∈ bs.map Book.uuid := List.mem_map_of_mem Book.uuid hx
        rwa [hxu, ← hb] at hmem
      simp [hb, hnil]
    · simp only [hb]
      simpa using ih h.2

theorem reqArg_error (r : Record) (k : String) (e : PyExc) (h : reqArg r k = .error e) :
    e = .typeError ("missing required positional argument: " ++ k) := by
  unfold reqArg at h
  cases hl : lookupKey r k <;> simp [hl] at h
  exact h.symm

theorem reqArg_ok (r : Record) (k : String) (v : PyVal) (h : reqArg r k = .ok v) :
    lookupKey r k = some v := by
  unfold reqArg at h
  cases hl : lookupKey r k <;> simp [hl] at h
  rw [h]


theorem bindBookArgs_error_typeError (fresh : String) (r : Record) (e : PyExc)
    (h : bindBookArgs fresh r = .error e) : ∃ m, e = .typeError m := by
  unfold bindBookArgs at h
  cases hf : r.find? (fun kv => !(bookParams.contains kv.1)) with
  | some kv =>
    simp only [hf, Except.error.injEq] at h
    exact ⟨_, h.symm⟩
  | none =>
    simp only [hf] at h
    cases h0 : reqArg r "author" with
    | error e0 =>
      simp only [h0, Except.error.injEq] at h
      exact ⟨_, by rw [← h]; exact reqArg_error r "author" e0 h0⟩
    | ok v0 =>
    simp only [h0] at h
    cases h1 : reqArg r "country" with
    | error e1 =>
      simp only [h1, Except.error.injEq] at h
      exact ⟨_, by rw [← h]; exact reqArg_error r "country" e1 h1⟩
    | ok v1 =>
    simp only [h1] at h
    cases h2 : reqArg r "imageLink" with
    | error e2 =>
      simp only [h2, Except.error.injEq] at h
      exact ⟨_, by rw [← h]; exact reqArg_error r "imageLink" e2 h2⟩
    | ok v2 =>
    simp only [h2] at h
    cases h3 : reqArg r "language" with
    | error e3 =>
      simp only [h3, Except.error.injEq] at h
      exact ⟨_, by rw [← h]; exact reqArg_error r "language" e3 h3⟩
    | ok v3 =>
    simp only [h3] at h
    cases h4 : reqArg r "link" with
    | error e4 =>
      simp only [h4, Except.error.injEq] at h
      exact ⟨_, by rw [← h]; exact reqArg_error r "link" e4 h4⟩
    | ok v4 =>
    simp only [h4] at h
    cases h5 : reqArg r "pages" with
    | error e5 =>
      simp only [h5, Except.error.injEq] at h
      exact ⟨_, by rw [← h]; exact reqArg_error r "pages" e5 h5⟩
    | ok v5 =>
    simp only [h5] at h
    cases h6 : reqArg r "title" with
    | error e6 =>
      simp only [h6, Except.error.injEq] at h
      exact ⟨_, by rw [← h]; exact reqArg_error r "title" e6 h6⟩
    | ok v6 =>
    simp only [h6] at h
    cases h7 : reqArg r "year" with
    | error e7 =>
      simp only [h7, Except.error.injEq] at h
      exact ⟨_, by rw [← h]; exact reqArg_error r "year" e7 h7⟩
    | ok v7 =>
    simp only [h7] at h
    cases h8 : reqArg r "last_read_page" with
    | error e8 =>
      simp only [h8, Except.error.injEq] at h
      exact ⟨_, by rw [← h]; exact reqArg_error r "last_read_page" e8 h8⟩
    | ok v8 =>
    simp only [h8] at h
    cases h9 : reqArg r "percentage_read" with
    | error e9 =>
      simp only [h9, Except.error.injEq] at h
      exact ⟨_, by rw [← h]; exact reqArg_error r "percentage_read" e9 h9⟩
    | ok v9 =>
    simp only [h9] at h
    cases h10 : reqArg r "last_read_date" with
    | error e10 =>
      simp only [h10, Except.error.injEq] at h
      exact ⟨_, by rw [← h]; exact reqArg_error r "last_read_date" e10 h10⟩
    | ok v10 =>
    simp only [h10] at h
    exact Except.noConfusion h


theorem bindBookArgs_ok_keys (fresh : String) (r : Record) (nb : Book)
    (h : bindBookArgs fresh r = .ok nb) :
    ∀ k ∈ bookFields, (lookupKey r k).isSome = true := by
  unfold bindBookArgs at h
  cases hf : r.find? (fun kv => !(bookParams.contains kv.1)) with
  | some kv => simp only [hf] at h; exact Except.noConfusion h
  | none =>
    simp only [hf] at h
    cases h0 : reqArg r "author" with
    | error e0 => simp only [h0] at h; exact Except.noConfusion h
    | ok v0 =>
    simp only [h0] at h
    cases h1 : reqArg r "country" with
    | error e1 => simp only [h1] at h; exact Except.noConfusion h
    | ok v1 =>
    simp only [h1] at h
    cases h2 : reqArg r "imageLink" with
    | error e2 => simp only [h2] at h; exact Except.noConfusion h
    | ok v2 =>
    simp only [h2] at h
    cases h3 : reqArg r "language" with
    | error e3 => simp only [h3] at h; exact Except.noConfusion h
    | ok v3 =>
    simp only [h3] at h
    cases h4 : reqArg r "link" with
    | error e4 => simp only [h4] at h; exact Except.noConfusion h
    | ok v4 =>
    simp only [h4] at h
    cases h5 : reqArg r "pages" with
    | error e5 => simp only [h5] at h; exact Except.noConfusion h
    | ok v5 =>
    simp only [h5] at h
    cases h6 : reqArg r "title" with
    | error e6 => simp only [h6] at h; exact Except.noConfusion h
    | ok v6 =>
    simp only [h6] at h
    cases h7 : reqArg r "year" with
    | error e7 => simp only [h7] at h; exact Except.noConfusion h
    | ok v7 =>
    simp only [h7] at h
    cases h8 : reqArg r "last_read_page" with
    | error e8 => simp only [h8] at h; exact Except.noConfusion h
    | ok v8 =>
    simp only [h8] at h
    cases h9 : reqArg r "percentage_read" with
    | error e9 => simp only [h9] at h; exact Except.noConfusion h
    | ok v9 =>
    simp only [h9] at h
    cases h10 : reqArg r "last_read_date" with
    | error e10 => simp only [h10] at h; exact Except.noConfusion h
    | ok v10 =>
    simp only [h10] at h
    clear h
    have hk0 : (lookupKey r "author").isSome = true := by rw [reqArg_ok r "author" v0 h0]; rfl
    have hk1 : (lookupKey r "country").isSome = true := by rw [reqArg_ok r "country" v1 h1]; rfl
    have hk2 : (lookupKey r "imageLink").isSome = true := by rw [reqArg_ok r "imageLink" v2 h2]; rfl
    have hk3 : (lookupKey r "language").isSome = true := by rw [reqArg_ok r "language" v3 h3]; rfl
    have hk4 : (lookupKey r "link").isSome = true := by rw [reqArg_ok r "link" v4 h4]; rfl
    have hk5 : (lookupKey r "pages").isSome = true := by rw [reqArg_ok r "pages" v5 h5]; rfl
    have hk6 : (lookupKey r "title").isSome = true := by rw [reqArg_ok r "title" v6 h6]; rfl
    have hk7 : (lookupKey r "year").isSome = true := by rw [reqArg_ok r "year" v7 h7]; rfl
    have hk8 : (lookupKey r "last_read_page").isSome = true := by rw [reqArg_ok r "last_read_page" v8 h8]; rfl
    have hk9 : (lookupKey r "percentage_read").isSome = true := by rw [reqArg_ok r "percentage_read" v9 h9]; rfl
    have hk10 : (lookupKey r "last_read_date").isSome = true := by rw [reqArg_ok r "last_read_date" v10 h10]; rfl
    intro k hk
    fin_cases hk <;> assumption

theorem required_sub_params (k : String) (h : k ∈ REQUIRED_KEYS) : bookParams.contains k = true := by
  fin_cases h <;> rfl

theorem bindBookArgs_of_keys (fresh : String) (r : Record)
    (hkeys : sameKeySet (recordKeys r) = true) :
    ∃ nb, bindBookArgs fresh r = .ok nb ∧ nb.uuid = .vStr fresh := by
  have hforward : ∀ k ∈ REQUIRED_KEYS, k ∈ recordKeys r := by
    intro k hk
    have h1 := (Bool.and_eq_true _ _ |>.mp hkeys).1
    have := (List.all_eq_true.mp h1) k hk
    simpa [List.contains, List.elem_iff] using this
  have hback : ∀ k ∈ recordKeys r, k ∈ REQUIRED_KEYS := by
    intro k hk
    have h2 := (Bool.and_eq_true _ _ |>.mp hkeys).2
    have := (List.all_eq_true.mp h2) k hk
    simpa [List.contains, List.elem_iff] using this
  have hfind : r.find? (fun kv => !(bookParams.contains kv.1)) = none := by
    apply List.find?_eq_none.mpr
    intro kv hkv
    have hmem : kv.1 ∈ recordKeys r := List.mem_map_of_mem (fun kv => kv.1) hkv
    have hc := required_sub_params kv.1 (hback kv.1 hmem)
    simp only [hc, Bool.not_true, Bool.false_eq_true, not_false_eq_true]
  have huuid : List.lookup "uuid" r = none := by
    apply (lookup_eq_none_iff r "uuid").mpr
    intro hmem
    have := hback "uuid" hmem
    simp [REQUIRED_KEYS] at this
  have hs0 : (List.lookup "author" r).isSome = true :=
    (lookup_isSome_iff r "author").mpr (hforward "author" (by simp [REQUIRED_KEYS]))
  obtain ⟨v0, hv0⟩ := Option.isSome_iff_exists.mp hs0
  have hs1 : (List.lookup "country" r).isSome = true :=
    (lookup_isSome_iff r "country").mpr (hforward "country" (by simp [REQUIRED_KEYS]))
  obtain ⟨v1, hv1⟩ := Option.isSome_iff_exists.mp hs1
  have hs2 : (List.lookup "imageLink" r).isSome = true :=
    (lookup_isSome_iff r "imageLink").mpr (hforward "imageLink" (by simp [REQUIRED_KEYS]))
  obtain ⟨v2, hv2⟩ := Option.isSome_iff_exists.mp hs2
  have hs3 : (List.lookup "language" r).isSome = true :=
    (lookup_isSome_iff r "language").mpr (hforward "language" (by simp [REQUIRED_KEYS]))
  obtain ⟨v3, hv3⟩ := Option.isSome_iff_exists.mp hs3
  have hs4 : (List.lookup "link" r).isSome = true :=
    (lookup_isSome_iff r "link").mpr (hforward "link" (by simp [REQUIRED_KEYS]))
  obtain ⟨v4, hv4⟩ := Option.isSome_iff_exists.mp hs4
  have hs5 : (List.lookup "pages" r).isSome = true :=
    (lookup_isSome_iff r "pages").mpr (hforward "pages" (by simp [REQUIRED_KEYS]))
  obtain ⟨v5, hv5⟩ := Option.isSome_iff_exists.mp hs5
  have hs6 : (List.lookup "title" r).isSome = true :=
    (lookup_isSome_iff r "title").mpr (hforward "title" (by simp [REQUIRED_KEYS]))
  obtain ⟨v6, hv6⟩ := Option.isSome_iff_exists.mp hs6
  have hs7 : (List.lookup "year" r).isSome = true :=
    (lookup_isSome_iff r "year").mpr (hforward "year" (by simp [REQUIRED_KEYS]))
  obtain ⟨v7, hv7⟩ := Option.isSome_iff_exists.mp hs7
  have hs8 : (List.lookup "last_read_page" r).isSome = true :=
    (lookup_isSome_iff r "last_read_page").mpr (hforward "last_read_page" (by simp [REQUIRED_KEYS]))
  obtain ⟨v8, hv8⟩ := Option.isSome_iff_exists.mp hs8
  have hs9 : (List.lookup "percentage_read" r).isSome = true :=
    (lookup_isSome_iff r "percentage_read").mpr (hforward "percentage_read" (by simp [REQUIRED_KEYS]))
  obtain ⟨v9, hv9⟩ := Option.isSome_iff_exists.mp hs9
  have hs10 : (List.lookup "last_read_date" r).isSome = true :=
    (lookup_isSome_iff r "last_read_date").mpr (hforward "last_read_date" (by simp [REQUIRED_KEYS]))
  obtain ⟨v10, hv10⟩ := Option.isSome_iff_exists.mp hs10
  refine ⟨Book.init fresh v0 v1 v2 v3 v4 v5 v6 v7 v8 v9 v10 .vNone, ?_, ?_⟩
  · unfold bindBookArgs
    simp only [hfind, reqArg, lookupKey, hv0, hv1, hv2, hv3, hv4, hv5, hv6, hv7, hv8, hv9, hv10, huuid]
    rfl
  · simp [Book.init, pyTruthy]

/-- C6: constructing a library over a missing backing file, or over any
file whose contents are malformed JSON, yields an empty library (zero
books) without raising any error, and listing books on such a library
returns the empty sequence. -/
theorem C6_load_defensive_empty :
    ∀ fresh : Nat → String,
      load_library fresh .missing = .ok [] ∧ load_library fresh .malformed = .ok []
      ∧ list_books_op fresh .missing = .ok [] ∧ list_books_op fresh .malformed = .ok [] :=
  fun _ => ⟨rfl, rfl, rfl, rfl⟩

/-- C7: round-trip law — for every book constructed by `Book.__init__`
from a valid field set (any field values, any uuid argument, a nonempty
generated-uuid supply), `Book.from_json` applied to `Book.to_dict`
reconstructs exactly the same book, uuid included. -/
theorem C7_roundtrip (fresh fresh2 : String) (hfresh : fresh ≠ "")
    (author country imageLink language link pages title year lrp pr lrd uuidv : PyVal) :
    Book.from_json fresh2
        (Book.init fresh author country imageLink language link pages title year
          lrp pr lrd uuidv).to_dict =
      .ok (Book.init fresh author country imageLink language link pages title year
          lrp pr lrd uuidv) := by
  apply from_json_to_dict
  simp only [Book.init]
  split
  · assumption
  · have hne : fresh.isEmpty = false := by
      cases h : fresh.isEmpty
      · rfl
      · exact absurd ((String.isEmpty_iff fresh).mp h) hfresh
    simp [pyTruthy, hne]

theorem C7_roundtrip_witness :
    Book.from_json "w2"
        (Book.init "w1" (.vStr "A") (.vStr "B") (.vStr "I") (.vStr "L") (.vStr "K")
          (.vInt 100) (.vStr "T") (.vInt 2000) (.vInt 0) (.vRat 0) (.vNone) (.vNone)).to_dict =
      .ok (Book.init "w1" (.vStr "A") (.vStr "B") (.vStr "I") (.vStr "L") (.vStr "K")
          (.vInt 100) (.vStr "T") (.vInt 2000) (.vInt 0) (.vRat 0) (.vNone) (.vNone)) :=
  C7_roundtrip "w1" "w2" (by decide) (.vStr "A") (.vStr "B") (.vStr "I") (.vStr "L")
    (.vStr "K") (.vInt 100) (.vStr "T") (.vInt 2000) (.vInt 0) (.vRat 0) (.vNone) (.vNone)

/-- C3: `find_books` returns exactly the books, in library order, for
which every supplied field/value pair matches (logical AND): the
`uuid` field by equality, every other field by case-sensitive substring
of the stringified field value when the field is present (non-null).
In particular an empty query value matches every book whose field is
non-null, and a uuid search over books with pairwise distinct uuids
returns at most one record. -/
theorem C3_find_books_spec :
    (∀ (books : List Book) (q : List (String × String)),
      find_books books q =
        (books.filter (fun b => q.all (fun kv => pairMatches b kv))).map Book.to_dict)
    ∧ (∀ (books : List Book) (k : String), k ≠ "uuid" →
      find_books books [(k, "")] =
        (books.filter (fun b => pyGetattr b k != .vNone)).map Book.to_dict)
    ∧ (∀ (books : List Book) (v : String), (books.map Book.uuid).Nodup →
      (find_books books [("uuid", v)]).length ≤ 1) := by
  refine ⟨?_, ?_, ?_⟩
  · intro books q
    rw [find_books_eq_filter]
    congr 1
    apply List.filter_congr
    intro b _
    exact bookMatchesQuery_eq_all b q
  · intro books k hk
    rw [find_books_eq_filter]
    congr 1
    apply List.filter_congr
    intro b _
    have hkb : (k == "uuid") = false := by simpa using hk
    cases ha : (pyGetattr b k == PyVal.vNone) <;>
      simp [bookMatchesQuery, hkb, ha, strContains_empty, bne]
  · intro books v hnodup
    rw [find_books_uuid, List.length_map]
    exact filter_uuid_length_le_one books v hnodup

theorem C3_find_books_spec_witness :
    find_books [bookN5, bookN9] [("title", "")] =
      ([bookN5, bookN9].filter (fun b => pyGetattr b "title" != .vNone)).map Book.to_dict
    ∧ (find_books [bookN5, bookN9] [("uuid", "n9")]).length ≤ 1 :=
  ⟨C3_find_books_spec.2.1 [bookN5, bookN9] "title" (by decide),
   C3_find_books_spec.2.2 [bookN5, bookN9] "n9" (by decide)⟩

/-- C4: `add_book_user` fails with the duplicate error (raised as
`ValidationError`, the spec's `DuplicateError` kind) when the uuid is
already in the user library, leaving the user file unchanged; fails
with `BookNotFoundError` when the uuid is absent from the global
library, leaving the user file unchanged; and otherwise appends to the
user library exactly one book — the first global match itself, its uuid
carried over unchanged — after which an identical second call fails
with the duplicate error. -/
theorem C4_add_book_user_spec (freshU freshG : Nat → String) (freshNew : String)
    (ubooks gbooks : List Book) (u : String)
    (hu : ∀ b ∈ ubooks, pyTruthy b.uuid = true)
    (hg : ∀ b ∈ gbooks, pyTruthy b.uuid = true) :
    ((∃ b ∈ ubooks, b.uuid = .vStr u) →
      add_book_user freshU freshG freshNew u (.books (gbooks.map Book.to_dict))
          (.books (ubooks.map Book.to_dict)) =
        (.error (.validationError "Book already exists in the user\x27s library."),
         .books (ubooks.map Book.to_dict)))
    ∧ ((∀ b ∈ ubooks, b.uuid ≠ .vStr u) → (∀ b ∈ gbooks, b.uuid ≠ .vStr u) →
      add_book_user freshU freshG freshNew u (.books (gbooks.map Book.to_dict))
          (.books (ubooks.map Book.to_dict)) =
        (.error (.bookNotFoundError "Book not found in the global library."),
         .books (ubooks.map Book.to_dict)))
    ∧ ((∀ b ∈ ubooks, b.uuid ≠ .vStr u) → ∀ g gs,
        gbooks.filter (fun b => pyEqB b.uuid (.vStr u)) = g :: gs →
        g.uuid = .vStr u
        ∧ add_book_user freshU freshG freshNew u (.books (gbooks.map Book.to_dict))
            (.books (ubooks.map Book.to_dict)) =
          (.ok g.to_dict, .books ((ubooks ++ [g]).map Book.to_dict))
        ∧ (add_book_user freshU freshG freshNew u (.books (gbooks.map Book.to_dict))
            (.books ((ubooks ++ [g]).map Book.to_dict))).1 =
          .error (.validationError "Book already exists in the user\x27s library.")) := by
  refine ⟨?_, ?_, ?_⟩
  · rintro ⟨b, hb, hbu⟩
    have hmem : b ∈ ubooks.filter (fun x => pyEqB x.uuid (.vStr u)) :=
      List.mem_filter.mpr ⟨hb, by rw [pyEqB_vStr]; simp [hbu]⟩
    cases hfil : ubooks.filter (fun x => pyEqB x.uuid (.vStr u)) with
    | nil => rw [hfil] at hmem; cases hmem
    | cons a rest =>
      have hff : find_books ubooks [("uuid", u)] = a.to_dict :: rest.map Book.to_dict := by
        rw [find_books_uuid, hfil, List.map_cons]
      simp only [add_book_user, load_library_map_to_dict freshU ubooks hu,
        load_library_map_to_dict freshG gbooks hg, hff]
  · intro hud hgd
    simp only [add_book_user, load_library_map_to_dict freshU ubooks hu,
      load_library_map_to_dict freshG gbooks hg, find_books_uuid_nil ubooks u hud,
      find_books_uuid_nil gbooks u hgd]
  · intro hud g gs hfil
    have hgmem : g ∈ gbooks.filter (fun b => pyEqB b.uuid (.vStr u)) := by
      rw [hfil]; exact List.mem_cons_self g gs
    have hgin : g ∈ gbooks := (List.mem_filter.mp hgmem).1
    have hguuid : g.uuid = .vStr u := by
      have := (List.mem_filter.mp hgmem).2
      rw [pyEqB_vStr] at this
      simpa using this
    have hgt : pyTruthy g.uuid = true := hg g hgin
    have hffg : find_books gbooks [("uuid", u)] = g.to_dict :: gs.map Book.to_dict := by
      rw [find_books_uuid, hfil, List.map_cons]
    refine ⟨hguuid, ?_, ?_⟩
    · simp only [add_book_user, load_library_map_to_dict freshU ubooks hu,
        load_library_map_to_dict freshG gbooks hg, find_books_uuid_nil ubooks u hud, hffg,
        from_json_to_dict freshNew g hgt, save_library]
    · have hu2 : ∀ b ∈ ubooks ++ [g], pyTruthy b.uuid = true := by
        intro b hb
        rcases List.mem_append.mp hb with hb' | hb'
        · exact hu b hb'
        · rcases List.mem_singleton.mp hb' with rfl
          exact hgt
      have hmem2 : g ∈ (ubooks ++ [g]).filter (fun x => pyEqB x.uuid (.vStr u)) :=
        List.mem_filter.mpr ⟨by simp, by rw [pyEqB_vStr]; simp [hguuid]⟩
      cases hfil2 : (ubooks ++ [g]).filter (fun x => pyEqB x.uuid (.vStr u)) with
      | nil => rw [hfil2] at hmem2; cases hmem2
      | cons a rest =>
        have hff2 : find_books (ubooks ++ [g]) [("uuid", u)] =
            a.to_dict :: rest.map Book.to_dict := by
          rw [find_books_uuid, hfil2, List.map_cons]
        simp only [add_book_user, load_library_map_to_dict freshU (ubooks ++ [g]) hu2,
          load_library_map_to_dict freshG gbooks hg, hff2]

theorem C4_add_book_user_spec_witness :
    bookU1.uuid = .vStr "u1"
    ∧ add_book_user fresh0 fresh0 "w" "u1" (.books ([bookN9, bookU1].map Book.to_dict))
        (.books ([bookN5].map Book.to_dict)) =
      (.ok bookU1.to_dict, .books (([bookN5] ++ [bookU1]).map Book.to_dict))
    ∧ (add_book_user fresh0 fresh0 "w" "u1" (.books ([bookN9, bookU1].map Book.to_dict))
        (.books (([bookN5] ++ [bookU1]).map Book.to_dict))).1 =
      .error (.validationError "Book already exists in the user\x27s library.") :=
  (C4_add_book_user_spec fresh0 fresh0 "w" [bookN5] [bookN9, bookU1] "u1"
      (by decide) (by decide)).2.2 (by decide) bookU1 [] (by decide)

/-- C2 counterexample: on a user library whose every book carries the
allow-listed target `last_read_date`, one value a string and one a
number, `find_top_book_user` raises an uncaught `TypeError` from the
maximum-selection comparison instead of returning the maximal book as
the claim states (the custom-`ValueError` handler does not catch it). -/
theorem C2_counterexample :
    find_top_book_user fresh0 (.books [bookSDate.to_dict, bookN5.to_dict]) "last_read_date" =
      .error (.typeError cmpTypeErrorMsg) := by rfl

/-- C2 (amended): for a loadable user library and an allow-listed
target whose stored values are numeric (so that the comparisons are
defined — mixed string/number values instead raise an uncaught
`TypeError`), `find_top_book_user` fails with `BookNotFoundError` on an
empty library, fails with `ValidationError` when no record carries the
target key, and otherwise returns the first record in library order
whose target value is maximal, a missing key defaulting to negative
infinity. -/
theorem C2_find_top_book_spec (fresh : Nat → String) (books : List Book) (target : String)
    (huuid : ∀ b ∈ books, pyTruthy b.uuid = true)
    (htarget : target ∈ ALLOWED_KEYS)
    (hnum : ∀ b ∈ books, (numVal ((lookupKey b.to_dict target).getD .vNegInf)).isSome = true) :
    (books = [] →
      find_top_book_user fresh (.books (books.map Book.to_dict)) target =
        .error (.bookNotFoundError "No books in the user\x27s library."))
    ∧ (books ≠ [] → (∀ b ∈ books, lookupKey b.to_dict target = none) →
      find_top_book_user fresh (.books (books.map Book.to_dict)) target =
        .error (.validationError
          ("No books with the attribute: " ++ target ++ " found in the user\x27s library.")))
    ∧ ((∃ b ∈ books, (lookupKey b.to_dict target).isSome = true) →
      ∃ top l1 l2,
        books.map Book.to_dict = l1 ++ top :: l2
        ∧ find_top_book_user fresh (.books (books.map Book.to_dict)) target = .ok top
        ∧ (∀ r ∈ l1, recTargetQ target r < recTargetQ target top)
        ∧ (∀ r ∈ l2, recTargetQ target r ≤ recTargetQ target top)) := by
  have hvk : validate_keys target = .ok () := by
    have hc : ALLOWED_KEYS.contains target = true := by
      simp [List.contains, List.elem_iff, htarget]
    unfold validate_keys
    rw [hc]
    rfl
  refine ⟨?_, ?_, ?_⟩
  · rintro rfl
    simp only [find_top_book_user, hvk, load_library, loadBooks, list_books, List.map_nil]
  · intro hne hnone
    cases books with
    | nil => exact absurd rfl hne
    | cons b bs =>
      have hload := load_library_map_to_dict fresh (b :: bs) huuid
      have hany : ((b.to_dict :: bs.map Book.to_dict).any
          (fun rec => (lookupKey rec target).isSome)) = false := by
        apply List.any_eq_false.mpr
        intro rec hrec
        rw [← List.map_cons] at hrec
        obtain ⟨x, hx, rfl⟩ := List.mem_map.mp hrec
        simp [hnone x hx]
      simp only [List.map_cons] at hload ⊢
      simp only [find_top_book_user, hvk, hload, list_books, List.map_cons, hany,
        Bool.not_false, if_true]
  · rintro ⟨c, hc, hcs⟩
    cases books with
    | nil => cases hc
    | cons b bs =>
      have hload := load_library_map_to_dict fresh (b :: bs) huuid
      have hany : ((b.to_dict :: bs.map Book.to_dict).any
          (fun rec => (lookupKey rec target).isSome)) = true := by
        apply List.any_eq_true.mpr
        refine ⟨c.to_dict, ?_, hcs⟩
        rcases List.mem_cons.mp hc with rfl | hcb
        · exact List.mem_cons_self _ _
        · exact List.mem_cons_of_mem _ (List.mem_map_of_mem _ hcb)
      have hkey : ∀ y ∈ b.to_dict :: bs.map Book.to_dict,
          (numVal ((fun rec => (lookupKey rec target).getD .vNegInf) y)).isSome = true := by
        intro y hy
        rw [← List.map_cons] at hy
        obtain ⟨x, hx, rfl⟩ := List.mem_map.mp hy
        exact hnum x hx
      have hmax := pyMaxBy_eq_pickMax (fun rec => (lookupKey rec target).getD .vNegInf)
        b.to_dict (bs.map Book.to_dict) hkey
      obtain ⟨l1, l2, heq, h1, h2⟩ := pickMax_first_max
        (fun y => (numVal ((fun rec => (lookupKey rec target).getD .vNegInf) y)).getD ⊥)
        b.to_dict (bs.map Book.to_dict)
      refine ⟨_, l1, l2, by simpa using heq, ?_, h1, h2⟩
      simp only [List.map_cons] at hload ⊢
      simp only [find_top_book_user, hvk, hload, list_books, List.map_cons, hany,
        Bool.not_true, Bool.false_eq_true, if_false, hmax]

theorem C2_find_top_book_spec_witness :
    ∃ top l1 l2,
      [bookN5, bookN9].map Book.to_dict = l1 ++ top :: l2
      ∧ find_top_book_user fresh0 (.books ([bookN5, bookN9].map Book.to_dict))
          "last_read_date" = .ok top
      ∧ (∀ r ∈ l1, recTargetQ "last_read_date" r < recTargetQ "last_read_date" top)
      ∧ (∀ r ∈ l2, recTargetQ "last_read_date" r ≤ recTargetQ "last_read_date" top) :=
  (C2_find_top_book_spec fresh0 [bookN5, bookN9] "last_read_date"
      (by decide) (by decide) (by decide)).2.2
    ⟨bookN5, List.mem_cons_self _ _, by decide⟩

/-- C9 counterexample: on a user library file in which one record
carries a string `last_read_date` and another record lacks the
`last_read_date` key, `find_top_book_user` does raise an unhandled
`TypeError` — but it is the argument-binding error raised while loading
the incomplete record into a `Book`, not the claimed
maximum-selection comparison against the negative-infinity default
(whose `TypeError` carries a different message). -/
theorem C9_counterexample :
    find_top_book_user fresh0 (.books [bookSDate.to_dict, recNoDate]) "last_read_date" =
      .error (.typeError "missing required positional argument: last_read_date")
    ∧ "missing required positional argument: last_read_date" ≠ cmpTypeErrorMsg :=
  ⟨by rfl, by decide⟩

/-- C9 (amended): every successfully loaded book carries every
attribute, so the negative-infinity missing-key default is unreachable;
a record lacking the target key instead aborts the load with an
unhandled `TypeError`.  The unhandled comparison `TypeError` the claim
describes arises when the stored target values mix strings with
numbers: for every non-empty loadable user library whose target values
are each numeric or string, with at least one of each, the
maximum-selection comparison raises an uncaught `TypeError` instead of
returning a result or a typed failure. -/
theorem C9_type_error_spec (fresh : Nat → String) (books : List Book) (target : String)
    (huuid : ∀ b ∈ books, pyTruthy b.uuid = true)
    (htarget : target ∈ ALLOWED_KEYS)
    (hall : ∀ b ∈ books, isNumV ((lookupKey b.to_dict target).getD .vNegInf) = true
      ∨ isStrV ((lookupKey b.to_dict target).getD .vNegInf) = true)
    (hnum : ∃ b, b ∈ books ∧ isNumV ((lookupKey b.to_dict target).getD .vNegInf) = true)
    (hstr : ∃ b, b ∈ books ∧ isStrV ((lookupKey b.to_dict target).getD .vNegInf) = true) :
    find_top_book_user fresh (.books (books.map Book.to_dict)) target =
      .error (.typeError cmpTypeErrorMsg) := by
  have hvk : validate_keys target = .ok () := by
    have hc : ALLOWED_KEYS.contains target = true := by
      simp [List.contains, List.elem_iff, htarget]
    unfold validate_keys
    rw [hc]
    rfl
  cases books with
  | nil =>
    obtain ⟨c, hc, _⟩ := hnum
    cases hc
  | cons b bs =>
    have hload := load_library_map_to_dict fresh (b :: bs) huuid
    obtain ⟨cs, hcs, hcss⟩ := hstr
    have hcs_some : (lookupKey cs.to_dict target).isSome = true := by
      cases hl : lookupKey cs.to_dict target with
      | none => rw [hl] at hcss; simp [isStrV] at hcss
      | some v => rfl
    have hany : ((b.to_dict :: bs.map Book.to_dict).any
        (fun rec => (lookupKey rec target).isSome)) = true := by
      apply List.any_eq_true.mpr
      refine ⟨cs.to_dict, ?_, hcs_some⟩
      rcases List.mem_cons.mp hcs with rfl | hcb
      · exact List.mem_cons_self _ _
      · exact List.mem_cons_of_mem _ (List.mem_map_of_mem _ hcb)
    have hmix := pyMaxBy_mixed (fun rec => (lookupKey rec target).getD .vNegInf)
      b.to_dict (bs.map Book.to_dict)
      (by
        intro y hy
        rw [← List.map_cons] at hy
        obtain ⟨x, hx, rfl⟩ := List.mem_map.mp hy
        exact hall x hx)
      (by
        obtain ⟨c, hc, hcn⟩ := hnum
        exact ⟨c.to_dict, by rw [← List.map_cons]; exact List.mem_map_of_mem _ hc, hcn⟩)
      ⟨cs.to_dict, by rw [← List.map_cons]; exact List.mem_map_of_mem _ hcs, hcss⟩
    simp only [List.map_cons] at hload ⊢
    simp only [find_top_book_user, hvk, hload, list_books, List.map_cons, hany,
      Bool.not_true, Bool.false_eq_true, if_false, hmix]

theorem C9_type_error_spec_witness :
    find_top_book_user fresh0 (.books ([bookN5, bookSDate].map Book.to_dict)) "last_read_date" =
      .error (.typeError cmpTypeErrorMsg) :=
  C9_type_error_spec fresh0 [bookN5, bookSDate] "last_read_date" (by decide) (by decide)
    (by decide) ⟨bookN5, by decide, by decide⟩ ⟨bookSDate, by decide, by decide⟩

theorem validate_json_bad (r : Record) (hemp : r.isEmpty = false)
    (hbad : sameKeySet (recordKeys r) = false) :
    validate_json r = .error (.validationError (invalidJsonMsg r)) := by
  unfold validate_json
  rw [hemp, hbad]
  rfl

theorem invalidJsonMsg_names_missing (r : Record) (k : String) (hk : k ∈ REQUIRED_KEYS)
    (hnot : k ∉ recordKeys r) : strContains (invalidJsonMsg r) k = true := by
  have hmem : k ∈ missingKeysOf r :=
    List.mem_filter.mpr ⟨hk, by simp [List.contains, List.elem_iff, hnot]⟩
  have hne : (missingKeysOf r).isEmpty = false := by
    cases hmiss : missingKeysOf r
    · rw [hmiss] at hmem; cases hmem
    · rfl
  apply strContains_trans _ ("Missing keys: " ++ joinSep ", " (missingKeysOf r)) k
  · unfold invalidJsonMsg
    apply strContains_appendR
    apply strContains_joinSep
    rw [hne]
    simp only [Bool.not_false, if_true]
    exact List.mem_append_left _ (List.mem_singleton.mpr rfl)
  · apply strContains_appendR
    exact strContains_joinSep ", " (missingKeysOf r) k hmem

theorem invalidJsonMsg_names_extra (r : Record) (k : String) (hk : k ∈ recordKeys r)
    (hnot : k ∉ REQUIRED_KEYS) : strContains (invalidJsonMsg r) k = true := by
  have hmem : k ∈ extraKeysOf r :=
    List.mem_filter.mpr ⟨hk, by simp [List.contains, List.elem_iff, hnot]⟩
  have hne : (extraKeysOf r).isEmpty = false := by
    cases hext : extraKeysOf r
    · rw [hext] at hmem; cases hmem
    · rfl
  apply strContains_trans _ ("Extra keys: " ++ joinSep ", " (extraKeysOf r)) k
  · unfold invalidJsonMsg
    apply strContains_appendR
    apply strContains_joinSep
    rw [hne]
    simp only [Bool.not_false, if_true]
    exact List.mem_append_right _ (List.mem_singleton.mpr rfl)
  · apply strContains_appendR
    exact strContains_joinSep ", " (extraKeysOf r) k hmem

/-- C5 counterexample: the empty record's key set differs from the
required set (every required key is missing), and `add_book_global`
does fail with `ValidationError` without touching the library — but
with the generic message "JSON data is None.", which names none of the
missing keys (e.g. not `author`), contradicting the claim that the
message names each specific missing key. -/
theorem C5_counterexample :
    add_book_global fresh0 "w" [] (.books []) =
      (.error (.validationError "JSON data is None."), .books [])
    ∧ strContains "JSON data is None." "author" = false :=
  ⟨by rfl, by rfl⟩

/-- C5 (amended): `add_book_global` fails with `ValidationError`,
leaving the global file unchanged, exactly when the record's key set is
not the required key set; for a NON-EMPTY record the message names each
specific missing key and each specific extra key (the empty record
fails with the generic message "JSON data is None." naming no keys);
when the key set is exact, a new book carrying the freshly generated
uuid is appended to the global library. -/
theorem C5_add_book_global_spec (fresh : Nat → String) (freshNew : String) (r : Record)
    (gbooks : List Book) (hg : ∀ b ∈ gbooks, pyTruthy b.uuid = true) :
    (r ≠ [] → sameKeySet (recordKeys r) = false →
      ∃ m, add_book_global fresh freshNew r (.books (gbooks.map Book.to_dict)) =
          (.error (.validationError m), .books (gbooks.map Book.to_dict))
        ∧ (∀ k ∈ REQUIRED_KEYS, k ∉ recordKeys r → strContains m k = true)
        ∧ (∀ k ∈ recordKeys r, k ∉ REQUIRED_KEYS → strContains m k = true))
    ∧ (sameKeySet (recordKeys r) = true →
      ∃ nb, bindBookArgs freshNew r = .ok nb ∧ nb.uuid = .vStr freshNew
        ∧ add_book_global fresh freshNew r (.books (gbooks.map Book.to_dict)) =
          (.ok (.success nb.to_dict),
           .books ((gbooks.map Book.to_dict) ++ [nb.to_dict]))) := by
  refine ⟨?_, ?_⟩
  · intro hne hbad
    have hemp : r.isEmpty = false := by
      cases r
      · exact absurd rfl hne
      · rfl
    have hval := validate_json_bad r hemp hbad
    refine ⟨invalidJsonMsg r, ?_, ?_, ?_⟩
    · simp only [add_book_global, hval]
    · intro k hk hknot
      exact invalidJsonMsg_names_missing r k hk hknot
    · intro k hk hknot
      exact invalidJsonMsg_names_extra r k hk hknot
  · intro hkeys
    obtain ⟨nb, hbind, hub⟩ := bindBookArgs_of_keys freshNew r hkeys
    have hmem_author : "author" ∈ recordKeys r := by
      have h1 := (Bool.and_eq_true _ _ |>.mp hkeys).1
      have := (List.all_eq_true.mp h1) "author" (by simp [REQUIRED_KEYS])
      simpa [List.contains, List.elem_iff] using this
    have hemp : r.isEmpty = false := by
      cases r with
      | nil => simp [recordKeys] at hmem_author
      | cons _ _ => rfl
    have hval : validate_json r = .ok () := by
      unfold validate_json
      rw [hemp, hkeys]
      rfl
    have hload := load_library_map_to_dict fresh gbooks hg
    refine ⟨nb, hbind, hub, ?_⟩
    simp only [add_book_global, hval, hload, hbind, save_library, List.map_append,
      List.map_cons, List.map_nil]

theorem C5_add_book_global_spec_witness :
    (∃ m, add_book_global fresh0 "w" recMissingTitle
          (.books (([] : List Book).map Book.to_dict)) =
        (.error (.validationError m), .books (([] : List Book).map Book.to_dict))
      ∧ (∀ k ∈ REQUIRED_KEYS, k ∉ recordKeys recMissingTitle → strContains m k = true)
      ∧ (∀ k ∈ recordKeys recMissingTitle, k ∉ REQUIRED_KEYS → strContains m k = true))
    ∧ (∃ nb, bindBookArgs "w" recBadPages = .ok nb ∧ nb.uuid = .vStr "w"
      ∧ add_book_global fresh0 "w" recBadPages (.books (([] : List Book).map Book.to_dict)) =
        (.ok (.success nb.to_dict),
         .books ((([] : List Book).map Book.to_dict) ++ [nb.to_dict]))) :=
  ⟨(C5_add_book_global_spec fresh0 "w" recMissingTitle [] (by decide)).1
      (by decide) (by decide),
   (C5_add_book_global_spec fresh0 "w" recBadPages [] (by decide)).2 (by decide)⟩

/-- C8 counterexample: `Book` construction performs no field
validation — building a book from a record whose `pages` value is the
non-numeric string "many" succeeds outright (no `ValidationError`, no
failure of any kind), contradicting the claim that construction fails
with `ValidationError` on a non-numeric `pages`. -/
theorem C8_counterexample :
    Book.from_json "w" recBadPages =
      .ok (Book.init "w" (.vStr "A") (.vStr "B") (.vStr "I") (.vStr "L") (.vStr "K")
        (.vStr "many") (.vStr "T") (.vInt 1990) (.vInt 0) (.vInt 0) (.vRat 0) .vNone)
    ∧ (Book.init "w" (.vStr "A") (.vStr "B") (.vStr "I") (.vStr "L") (.vStr "K")
        (.vStr "many") (.vStr "T") (.vInt 1990) (.vInt 0) (.vInt 0) (.vRat 0) .vNone).pages =
      .vStr "many" :=
  ⟨by rfl, by rfl⟩

/-- C8 (amended): construction binds fields without validating them —
`from_json` on a record missing a required field always fails, but with
the keyword-binding `TypeError`, never `ValidationError`; a record
carrying every required field is accepted with no validation of the
field contents (non-numeric `pages`/`year` included); and when no
`uuid` is supplied a fresh one is generated. -/
theorem C8_book_construction_spec (fresh : String) (r : Record) :
    ((∃ k, k ∈ bookFields ∧ lookupKey r k = none) →
      ∃ m, Book.from_json fresh r = .error (.typeError m))
    ∧ (∀ author country imageLink language link pages title year lrp pr lrd : PyVal,
      Book.from_json fresh
          [("author", author), ("country", country), ("imageLink", imageLink),
           ("language", language), ("link", link), ("pages", pages), ("title", title),
           ("year", year), ("last_read_page", lrp), ("percentage_read", pr),
           ("last_read_date", lrd)] =
        .ok (Book.init fresh author country imageLink language link pages title year
          lrp pr lrd .vNone)
      ∧ (Book.init fresh author country imageLink language link pages title year
          lrp pr lrd .vNone).uuid = .vStr fresh) := by
  constructor
  · rintro ⟨k, hk, hnone⟩
    cases hres : Book.from_json fresh r with
    | error e =>
      obtain ⟨m, rfl⟩ := bindBookArgs_error_typeError fresh r e hres
      exact ⟨m, rfl⟩
    | ok nb =>
      have := bindBookArgs_ok_keys fresh r nb hres k hk
      simp [hnone] at this
  · intro author country imageLink language link pages title year lrp pr lrd
    exact ⟨rfl, rfl⟩

theorem C8_book_construction_spec_witness :
    (∃ m, Book.from_json "w" recNoDate = .error (.typeError m))
    ∧ Book.from_json "w"
          [("author", .vStr "A"), ("country", .vStr "B"), ("imageLink", .vStr "I"),
           ("language", .vStr "L"), ("link", .vStr "K"), ("pages", .vInt 7),
           ("title", .vStr "T"), ("year", .vInt 2000), ("last_read_page", .vInt 0),
           ("percentage_read", .vRat 0), ("last_read_date", .vRat 0)] =
        .ok (Book.init "w" (.vStr "A") (.vStr "B") (.vStr "I") (.vStr "L") (.vStr "K")
          (.vInt 7) (.vStr "T") (.vInt 2000) (.vInt 0) (.vRat 0) (.vRat 0) .vNone)
    ∧ (Book.init "w" (.vStr "A") (.vStr "B") (.vStr "I") (.vStr "L") (.vStr "K")
        (.vInt 7) (.vStr "T") (.vInt 2000) (.vInt 0) (.vRat 0) (.vRat 0) .vNone).uuid =
      .vStr "w" :=
  ⟨(C8_book_construction_spec "w" recNoDate).1 ⟨"last_read_date", by decide, by rfl⟩,
   (C8_book_construction_spec "w" recNoDate).2 (.vStr "A") (.vStr "B") (.vStr "I")
     (.vStr "L") (.vStr "K") (.vInt 7) (.vStr "T") (.vInt 2000) (.vInt 0) (.vRat 0) (.vRat 0)⟩

theorem lookup_to_dict_pages (b : Book) : lookupKey b.to_dict "pages" = some b.pages := rfl

theorem lookup_to_dict_lrp (b : Book) :
    lookupKey b.to_dict "last_read_page" = some b.last_read_page := rfl

theorem vInt_beq_vNone (p : Int) : (PyVal.vInt p == PyVal.vNone) = false := rfl

theorem pageUpdatedBook_lrp (now : Rat) (n p : Int) (b : Book) :
    (pageUpdatedBook now n p b).last_read_page = .vInt n := rfl

theorem change_page_success (now : Rat) (fresh : Nat → String) (u : String) (n p : Int)
    (pre post : List Book) (b : Book)
    (hu : ∀ x ∈ pre ++ b :: post, pyTruthy x.uuid = true)
    (hb : b.uuid = .vStr u)
    (hpre : ∀ x ∈ pre, x.uuid ≠ .vStr u)
    (hpages : b.pages = .vInt p) (hp : 0 < p) (hn : 0 < n) (hnp : n ≤ p) :
    change_book_page_user now fresh u (.vInt n) (.books ((pre ++ b :: post).map Book.to_dict)) =
      (.ok (find_books (pre ++ b :: post) [("uuid", u)]),
       .books ((pre ++ pageUpdatedBook now n p b :: post).map Book.to_dict)) := by
  have hbooks_load := load_library_map_to_dict fresh (pre ++ b :: post) hu
  have hpreF : ∀ x ∈ pre, pyEqB x.uuid (.vStr u) = false := by
    intro x hx
    rw [pyEqB_vStr]
    simpa using hpre x hx
  have hfilpre : pre.filter (fun x => pyEqB x.uuid (.vStr u)) = [] :=
    List.filter_eq_nil_iff.mpr (fun x hx => by simp [hpreF x hx])
  have hbT : pyEqB b.uuid (.vStr u) = true := by
    rw [pyEqB_vStr]
    simp [hb]
  have hfind : find_books (pre ++ b :: post) [("uuid", u)] =
      b.to_dict :: (post.filter (fun x => pyEqB x.uuid (.vStr u))).map Book.to_dict := by
    rw [find_books_uuid, List.filter_append, hfilpre]
    simp [List.filter_cons, hbT]
  have hupd2 : (Book.update_last_read_date now b).update_last_read_page n =
      .ok (pageUpdatedBook now n p b) := by
    simp [Book.update_last_read_date, Book.update_last_read_page, hpages, pyTruthy, pyToQ,
      bne_iff_ne, hp.ne', pageUpdatedBook]
  have hurs := update_reading_status_skip now u n pre (b :: post) hpreF _ _
    (update_reading_status_head now u n b post hbT _ hupd2)
  have hnotlt : ¬(((p : Rat) : WithBot Rat) < ((n : Rat) : WithBot Rat)) := by
    rw [WithBot.coe_lt_coe]
    exact not_lt.mpr (by exact_mod_cast hnp)
  have hngt : pyGtB (.vInt n) (.vInt p) = .ok false := by
    simp [pyGtB, numVal, hnotlt]
  have hbT2 : pyEqB (pageUpdatedBook now n p b).uuid (.vStr u) = true := hbT
  have hfind2 : find_books (pre ++ pageUpdatedBook now n p b :: post) [("uuid", u)] =
      (pageUpdatedBook now n p b).to_dict
        :: (post.filter (fun x => pyEqB x.uuid (.vStr u))).map Book.to_dict := by
    rw [find_books_uuid, List.filter_append, hfilpre]
    simp [List.filter_cons, hbT2]
  unfold change_book_page_user
  simp only [pyInt, if_neg (not_le.mpr hn), hbooks_load, hfind, lookup_to_dict_pages, hpages,
    vInt_beq_vNone, Bool.false_eq_true, if_false, hngt, hurs, save_library, hfind2,
    lookup_to_dict_lrp, pageUpdatedBook_lrp, pyEqB_vInt_self, Bool.not_true, if_true]

/-- C1 (evaluating the code at Scenario D and at the failing input): on
a single-book library with 300 pages and uuid `u1`, page 301 fails with
`ValidationError`; page 150 succeeds, persisting `last_read_page = 150`
and `percentage_read = 50.0`; but the non-integer page string "abc"
raises the BUILTIN `ValueError` uncaught — the function's
`except ValueError` clause binds the custom shadowing class from
`exceptions.py` — instead of the `ValidationError` the claim (and the
handler's own "Page number must be an integer." message) prescribe. -/
theorem C1_change_page_eval :
    (∀ now : Rat, change_book_page_user now fresh0 "u1" (.vInt 301) fileU1 =
      (.error (.validationError "Page number exceeds total pages of the book."), fileU1))
    ∧ (∀ now : Rat, change_book_page_user now fresh0 "u1" (.vInt 150) fileU1 =
      (.ok [bookU1.to_dict], .books [(pageUpdatedBook now 150 300 bookU1).to_dict]))
    ∧ (∀ now : Rat, (pageUpdatedBook now 150 300 bookU1).last_read_page = .vInt 150
        ∧ (pageUpdatedBook now 150 300 bookU1).percentage_read = .vRat 50
        ∧ (pageUpdatedBook now 150 300 bookU1).last_read_date = .vRat now)
    ∧ (∀ now : Rat, change_book_page_user now fresh0 "u1" (.vStr "abc") fileU1 =
      (.error (.builtinValueError "invalid literal for int() with base 10: abc"), fileU1)) := by
  refine ⟨fun now => by rfl, ?_, ?_, fun now => by rfl⟩
  · intro now
    have hf : find_books [bookU1] [("uuid", "u1")] = [bookU1.to_dict] := by rfl
    have h := change_page_success now fresh0 "u1" 150 300 [] [] bookU1 (by decide) rfl
      (by simp) rfl (by decide) (by decide) (by decide)
    simpa [hf, fileU1] using h
  · intro now
    refine ⟨rfl, ?_, rfl⟩
    show PyVal.vRat (((150 : Int) : Rat) / ((300 : Int) : Rat) * 100) = PyVal.vRat 50
    norm_num

/-- C10: on a successful `change_book_page_user` call the payload
returned under "book updated" is the record fetched BEFORE the
mutation — its `last_read_page`, `percentage_read` and
`last_read_date` entries still hold the pre-update field values of the
book — even though the persisted library (which is also what the
`UpdateError` verification re-reads) holds the updated values. -/
theorem C10_change_page_returns_stale (now : Rat) (fresh : Nat → String) (u : String)
    (n p : Int) (pre post : List Book) (b : Book)
    (hu : ∀ x ∈ pre ++ b :: post, pyTruthy x.uuid = true)
    (hb : b.uuid = .vStr u)
    (hpre : ∀ x ∈ pre, x.uuid ≠ .vStr u) (hpost : ∀ x ∈ post, x.uuid ≠ .vStr u)
    (hpages : b.pages = .vInt p) (hp : 0 < p) (hn : 0 < n) (hnp : n ≤ p) :
    change_book_page_user now fresh u (.vInt n)
        (.books ((pre ++ b :: post).map Book.to_dict)) =
      (.ok [b.to_dict], .books ((pre ++ pageUpdatedBook now n p b :: post).map Book.to_dict))
    ∧ lookupKey b.to_dict "last_read_page" = some b.last_read_page
    ∧ lookupKey b.to_dict "percentage_read" = some b.percentage_read
    ∧ lookupKey b.to_dict "last_read_date" = some b.last_read_date
    ∧ (pageUpdatedBook now n p b).last_read_page = .vInt n
    ∧ (pageUpdatedBook now n p b).percentage_read = .vRat ((n : Rat) / (p : Rat) * 100)
    ∧ (pageUpdatedBook now n p b).last_read_date = .vRat now := by
  refine ⟨?_, rfl, rfl, rfl, rfl, rfl, rfl⟩
  have h := change_page_success now fresh u n p pre post b hu hb hpre hpages hp hn hnp
  have hpreF : pre.filter (fun x => pyEqB x.uuid (.vStr u)) = [] :=
    List.filter_eq_nil_iff.mpr (fun x hx => by rw [pyEqB_vStr]; simpa using hpre x hx)
  have hpostF : post.filter (fun x => pyEqB x.uuid (.vStr u)) = [] :=
    List.filter_eq_nil_iff.mpr (fun x hx => by rw [pyEqB_vStr]; simpa using hpost x hx)
  have hbT : pyEqB b.uuid (.vStr u) = true := by
    rw [pyEqB_vStr]
    simp [hb]
  have hone : find_books (pre ++ b :: post) [("uuid", u)] = [b.to_dict] := by
    rw [find_books_uuid, List.filter_append, hpreF]
    simp [List.filter_cons, hbT, hpostF]
  rw [h, hone]

theorem C10_change_page_returns_stale_witness :
    change_book_page_user 777 fresh0 "u1" (.vInt 150)
        (.books (([] ++ bookU1 :: [bookN5]).map Book.to_dict)) =
      (.ok [bookU1.to_dict],
       .books (([] ++ pageUpdatedBook 777 150 300 bookU1 :: [bookN5]).map Book.to_dict))
    ∧ lookupKey bookU1.to_dict "last_read_page" = some bookU1.last_read_page
    ∧ lookupKey bookU1.to_dict "percentage_read" = some bookU1.percentage_read
    ∧ lookupKey bookU1.to_dict "last_read_date" = some bookU1.last_read_date
    ∧ (pageUpdatedBook 777 150 300 bookU1).last_read_page = .vInt 150
    ∧ (pageUpdatedBook 777 150 300 bookU1).percentage_read =
      .vRat (((150 : Int) : Rat) / ((300 : Int) : Rat) * 100)
    ∧ (pageUpdatedBook 777 150 300 bookU1).last_read_date = .vRat 777 :=
  C10_change_page_returns_stale 777 fresh0 "u1" 150 300 [] [bookN5] bookU1
    (by decide) rfl (by decide) (by decide) rfl (by decide) (by decide) (by decide)
